import Mathlib

/-
Shallow embedding of the memory-leak demonstration scripts of this
repository: `leak.py`, `teste.py`, `teste4.py` and `teste_vscode.py`.

Modelling conventions used throughout this file:

* Python's `random` module is modelled by an oracle `ω : Nat → Rat`
  giving the stream of draws (each in `[0,1)`) observed by the thread
  under consideration, together with an explicit position counter that
  every primitive advances by the number of draws it consumes.
  `random.random()` consumes one draw, `random.uniform(a,b)` maps one
  draw into `[a,b]`, `random.randint(a,b)` maps one draw into `a..b`,
  and `random.choices(pop, k=n)` consumes `n` draws, each selecting an
  index into the population.
* `time.time()` and `datetime.now().timestamp()` are modelled by a
  clock oracle `τ : Nat → Rat` with an explicit position counter that
  each call advances by one; wall-clock monotonicity is an explicit
  hypothesis where a theorem needs it.
* Python `dict`s are modelled as association lists with Python's update
  semantics: writing to an existing key replaces its value in place,
  writing to a fresh key appends the pair at the end.
* Log output (`logger.info`, `logger.warning`, `print`) is modelled as
  values of an explicit event type collected into traces; `time.sleep`
  is modelled as a trace event carrying the requested duration.
* String payloads are carried as the lists of drawn character indices;
  nothing in the scripts ever reads a payload back, so only their
  shapes and the draws they consume matter.
-/

namespace Leak

/- ### Random-module primitives -/

/-- Map one oracle draw `r ∈ [0,1)` into `0 .. n-1` (the index selection
underlying `random.choices` and `random.randint`). -/
def floorDraw (r : Rat) (n : Nat) : Nat :=
  (r * n).floor.toNat

/-- `random.randint(a, b)`: one draw mapped into `a .. b`. -/
def randint (a b : Nat) (ω : Nat → Rat) (p : Nat) : Nat :=
  a + floorDraw (ω p) (b - a + 1)

/-- `random.random()`: one draw in `[0,1)`. -/
def randomFloat (ω : Nat → Rat) (p : Nat) : Rat := ω p

/-- `random.uniform(a, b)`: one draw mapped into `[a,b]`. -/
def uniform (a b : Rat) (ω : Nat → Rat) (p : Nat) : Rat :=
  a + (b - a) * ω p

/-- `random.choices(population, k)` over a population of size `popSize`:
`k` draws at consecutive positions, each selecting an index. -/
def choices (popSize k : Nat) (ω : Nat → Rat) (p : Nat) : List Nat :=
  (List.range k).map (fun i => floorDraw (ω (p + i)) popSize)

/-- `[random.random() for _ in range(k)]`: `k` draws at consecutive
positions. -/
def randomList (k : Nat) (ω : Nat → Rat) (p : Nat) : List Rat :=
  (List.range k).map (fun i => ω (p + i))

/- ### Python dict as an association list -/

/-- `d[k]` lookup: the value at the first (and, for states reachable in
these scripts, only) occurrence of the key. -/
def dictFind {κ β : Type} [DecidableEq κ] (k : κ) : List (κ × β) → Option β
  | [] => none
  | e :: rest => if e.1 = k then some e.2 else dictFind k rest

/-- `d[k] = v`: replace the value if the key is present, otherwise
append the pair at the end (Python insertion-order semantics). -/
def dictInsert {κ β : Type} [DecidableEq κ] (k : κ) (v : β) : List (κ × β) → List (κ × β)
  | [] => [(k, v)]
  | e :: rest => if e.1 = k then (k, v) :: rest else e :: dictInsert k v rest

/-- In-place mutation of the value stored under a present key
(`d[k].append(...)` patterns); absent keys leave the dict unchanged. -/
def dictModify {κ β : Type} [DecidableEq κ] (k : κ) (f : β → β) : List (κ × β) → List (κ × β)
  | [] => []
  | e :: rest => if e.1 = k then (e.1, f e.2) :: rest else e :: dictModify k f rest

theorem dictInsert_length_cases {κ β : Type} [DecidableEq κ] (k : κ) (v : β)
    (d : List (κ × β)) :
    (dictInsert k v d).length = d.length ∨ (dictInsert k v d).length = d.length + 1 := by
  induction d with
  | nil => right; rfl
  | cons e rest ih =>
      by_cases h : e.1 = k
      · left; simp [dictInsert, h]
      · rcases ih with h' | h'
        · left; simp [dictInsert, h, h']
        · right; simp [dictInsert, h, h']

theorem dictInsert_length_ge {κ β : Type} [DecidableEq κ] (k : κ) (v : β)
    (d : List (κ × β)) : d.length ≤ (dictInsert k v d).length := by
  rcases dictInsert_length_cases k v d with h | h <;> omega

theorem dictInsert_length_le {κ β : Type} [DecidableEq κ] (k : κ) (v : β)
    (d : List (κ × β)) : (dictInsert k v d).length ≤ d.length + 1 := by
  rcases dictInsert_length_cases k v d with h | h <;> omega

/-- Inserting a key that is absent from the dict appends one entry. -/
theorem dictInsert_length_of_not_mem {κ β : Type} [DecidableEq κ] (k : κ) (v : β)
    (d : List (κ × β)) (h : ∀ e ∈ d, e.1 ≠ k) :
    (dictInsert k v d).length = d.length + 1 := by
  induction d with
  | nil => rfl
  | cons e rest ih =>
      have he : e.1 ≠ k := h e (by simp)
      have : (dictInsert k v rest).length = rest.length + 1 :=
        ih (fun e' he' => h e' (by simp [he']))
      simp [dictInsert, he, this]

theorem dictModify_length {κ β : Type} [DecidableEq κ] (k : κ) (f : β → β)
    (d : List (κ × β)) : (dictModify k f d).length = d.length := by
  induction d with
  | nil => rfl
  | cons e rest ih =>
      by_cases h : e.1 = k <;> simp [dictModify, h, ih]

/- ### `teste.py` — `memory_leak_simulation` -/

/-- The 1 MB block `'A' * 10**6` appended on every iteration of
`memory_leak_simulation`. -/
def megaBlockA : List Char := List.replicate 1000000 'A'

/-- One iteration of `memory_leak_simulation`'s `while True` body:
append the block to `leaked_list`, then `time.sleep(0.1)`.  Returns the
new list and the requested sleep duration. -/
def memory_leak_iter (leaked_list : List (List Char)) : List (List Char) × Rat :=
  (leaked_list ++ [megaBlockA], 1/10)

/-- The state of `leaked_list` after `n` iterations of
`memory_leak_simulation` (it starts empty). -/
def memory_leak_run : Nat → List (List Char)
  | 0 => []
  | n + 1 => (memory_leak_iter (memory_leak_run n)).1

theorem memory_leak_run_length (n : Nat) : (memory_leak_run n).length = n := by
  induction n with
  | zero => rfl
  | succ n ih => simp [memory_leak_run, memory_leak_iter, ih]

/- ### `teste4.py` — `vazamento_de_memoria` -/

/-- State of `vazamento_de_memoria`: the list held by the local name
`vazamento`, whether that name is still bound (`del` clears it), and
the `print` output so far. -/
structure Teste4State where
  vazamento : List (List Char)
  bound : Bool
  prints : List Nat
  deriving Repr, DecidableEq

def teste4_initial : Teste4State := { vazamento := [], bound := true, prints := [] }

/-- One iteration of the `while True` body of `vazamento_de_memoria`:
append `"A" * 10**6`, print the stored-object count, `time.sleep(0.5)`. -/
def vazamento_iter (st : Teste4State) : Teste4State × Rat :=
  ({ st with
      vazamento := st.vazamento ++ [megaBlockA],
      prints := st.prints ++ [st.vazamento.length + 1] }, 1/2)

/-- State after `n` iterations of `vazamento_de_memoria`. -/
def vazamento_run : Nat → Teste4State
  | 0 => teste4_initial
  | n + 1 => (vazamento_iter (vazamento_run n)).1

/-- The `finally` clause of `vazamento_de_memoria`: `del vazamento`
unbinds the local name; it performs no operation on the list object
itself (no element is removed before the binding disappears). -/
def vazamento_finally (st : Teste4State) : Teste4State :=
  { st with bound := false }

theorem vazamento_run_length (n : Nat) : (vazamento_run n).vazamento.length = n := by
  induction n with
  | zero => rfl
  | succ n ih => simp [vazamento_run, vazamento_iter, ih]

/- ### `teste_vscode.py` -/

/-- `process_data(data_chunk)`: square every element of the chunk. -/
def process_data (data_chunk : List Nat) : List Nat :=
  data_chunk.map (fun x => x ^ 2)

/-- State of a `teste_vscode.py` run: the module-level `leak_list` and
the `print` output (`"Processed chunk with {n} items."` per chunk). -/
structure VscState where
  leak_list : List (List Nat)
  prints : List Nat
  deriving Repr, DecidableEq

def vsc_initial : VscState := { leak_list := [], prints := [] }

/-- The dataset of `main()`: 100 chunks, each `list(range(1000))`. -/
def vsc_data : List (List Nat) :=
  (List.range 100).map (fun _ => List.range 1000)

/-- One pass of the `for chunk in data` loop of `main()`: process the
chunk, print its item count, then `del processed_chunk`.  Note that the
body never touches `leak_list`. -/
def vsc_step (st : VscState) (chunk : List Nat) : VscState :=
  let processed_chunk := process_data chunk
  { st with prints := st.prints ++ [processed_chunk.length] }

/-- A full run of `teste_vscode.py`'s `main()`. -/
def vsc_main : VscState :=
  vsc_data.foldl vsc_step vsc_initial

theorem vsc_foldl_leak_list (l : List (List Nat)) (st : VscState) :
    (l.foldl vsc_step st).leak_list = st.leak_list := by
  induction l generalizing st with
  | nil => rfl
  | cons c rest ih => simp [List.foldl, vsc_step, ih]

theorem vsc_foldl_prints_length (l : List (List Nat)) (st : VscState) :
    (l.foldl vsc_step st).prints.length = st.prints.length + l.length := by
  induction l generalizing st with
  | nil => simp
  | cons c rest ih =>
      simp [List.foldl, vsc_step, ih]
      omega

/- ### `leak.py` — data model -/

/-- Population size of `string.ascii_letters + string.digits`. -/
def lettersDigits : Nat := 62

/-- Population size of `string.ascii_letters`. -/
def letters : Nat := 52

/-- One entry of `_generate_large_data`'s `nested_data` dict. -/
structure NestedVal where
  value : Rat
  description : List Nat
  deriving Repr, DecidableEq

/-- The dict returned by `DataProcessor._generate_large_data`. -/
structure LargeData where
  payload : List Nat
  matrix : List (List Rat)
  nested_data : List (Nat × NestedVal)
  deriving Repr, DecidableEq

/-- `DataProcessor._generate_large_data`: a 10000-character payload
(`choices` over letters+digits), a 100×100 matrix of `random()` draws,
and 50 nested entries of one `random()` draw plus a 500-character
description each. -/
def generate_large_data (ω : Nat → Rat) (p : Nat) : LargeData :=
  { payload := choices lettersDigits 10000 ω p,
    matrix := (List.range 100).map (fun r => randomList 100 ω (p + 10000 + r * 100)),
    nested_data := (List.range 50).map (fun i =>
      (i, { value := ω (p + 20000 + i * 501),
            description := choices letters 500 ω (p + 20000 + i * 501 + 1) })) }

/-- Number of random draws `_generate_large_data` consumes:
10000 (payload) + 10000 (matrix) + 50 · 501 (nested). -/
def generateCost : Nat := 45050

/-- A record id `f"record_{datetime.now().timestamp()}_{i}"`: the
timestamp and the batch index (the f-string rendering is injective in
this pair). -/
abbrev RecordId := Rat × Nat

/-- The `metadata` dict of a `DataRecord`. -/
structure Metadata where
  processed : Bool
  size : Nat
  deriving Repr, DecidableEq

/-- Surrogate for `len(str(large_data))` in a record's metadata: a
structural size.  No property below reads this value; it is carried
only so the record has the same shape as in the source. -/
def dataStrLen (d : LargeData) : Nat :=
  d.payload.length + (d.matrix.map List.length).sum + d.nested_data.length

/-- `DataRecord` (`__post_init__` sets `parent = None`, `children = []`;
nothing in the program ever assigns either afterwards). -/
structure DataRecord where
  id : RecordId
  timestamp : Rat
  data : LargeData
  metadata : Metadata
  parent : Option Unit
  children : List Unit
  deriving Repr, DecidableEq

/-- One of the temporary objects `_simulate_processing` builds. -/
structure TempObj where
  id : RecordId
  data : LargeData
  processing_time : Rat
  deriving Repr, DecidableEq

/-- `DataProcessor._simulate_processing`: build 100 temp objects (each
with a `time.time()` stamp) to be extended onto `temp_files`. -/
def simulate_processing (record : DataRecord) (τ : Nat → Rat) (c : Nat) :
    List TempObj × Nat :=
  ((List.range 100).map (fun j =>
      { id := record.id, data := record.data, processing_time := τ (c + j) }), c + 100)

/-- The instance state of `DataProcessor`. -/
structure DataProcessor where
  processed_records : List (RecordId × DataRecord)
  temp_files : List TempObj
  connections : List Unit
  memory_intensive_data : List LargeData
  deriving Repr, DecidableEq

/- ### `leak.py` — connections -/

/-- `f"conn_{i}_{time.time()}"`: loop index and timestamp. -/
abbrev ConnId := Nat × Rat

/-- A message sent through a connection (`message_id`, 2000-character
payload; the `metadata` entry is the constant
`{"size": 2000, "type": "simulation"}` and is omitted). -/
structure Msg where
  message_id : Nat
  payload : List Nat
  deriving Repr, DecidableEq

/-- A connection dict (`status` is the constant `"active"`, modelled as
`true`). -/
structure Connection where
  id : ConnId
  created_at : Rat
  data_buffer : List Msg
  status : Bool
  deriving Repr, DecidableEq

/-- `ConnectionManager`.  In Python `connection_history` stores
references to the very dict objects held in `active_connections`; the
aliasing is modelled by recording the key of each created connection. -/
structure ConnectionManager where
  active_connections : List (ConnId × Connection)
  connection_history : List ConnId
  deriving Repr, DecidableEq

/-- `ConnectionManager.create_connection`: build the connection dict
(one `datetime.now()` call), store it in `active_connections` and
append it to `connection_history`. -/
def create_connection (mgr : ConnectionManager) (connection_id : ConnId)
    (τ : Nat → Rat) (c : Nat) : ConnectionManager × Nat :=
  let connection : Connection :=
    { id := connection_id, created_at := τ c, data_buffer := [], status := true }
  ({ active_connections := dictInsert connection_id connection mgr.active_connections,
     connection_history := mgr.connection_history ++ [connection_id] }, c + 1)

/-- `data_buffer.append(data)` on a connection dict. -/
def bufAppend (data : Msg) (conn : Connection) : Connection :=
  { conn with data_buffer := conn.data_buffer ++ [data] }

/-- `ConnectionManager.send_data`: append to the connection's buffer if
the id is an active connection, otherwise do nothing at all. -/
def send_data (mgr : ConnectionManager) (connection_id : ConnId) (data : Msg) :
    ConnectionManager :=
  if (dictFind connection_id mgr.active_connections).isSome then
    { mgr with active_connections :=
        dictModify connection_id (bufAppend data) mgr.active_connections }
  else mgr

/- ### `leak.py` — events, threads, workers -/

/-- The event dict fired in `run_simulation`'s event loop (its `type`
field is the constant `"data_event"` and is omitted). -/
structure EventData where
  timestamp : Rat
  data : List Rat
  deriving Repr, DecidableEq

/-- The `processed_event` dict built by `_handle_event`. -/
structure ProcessedEvent where
  original : EventData
  processed_at : Rat
  handler_data : List Rat
  deriving Repr, DecidableEq

/-- An `EventListener` (its callback is always the simulator's
`_handle_event` lambda and is never invoked, since `handle_event` is
never called; only `data_buffer` ever changes). -/
structure EventListener where
  name : Nat
  data_buffer : List ProcessedEvent
  deriving Repr, DecidableEq

/-- A `threading.Thread` handle as stored in `THREAD_POOL`; `joined`
records whether `join()` was ever called on it (no code path does). -/
structure ThreadHandle where
  worker_name : Nat
  joined : Bool
  deriving Repr, DecidableEq

/-- The `work_data` dict a `BackgroundWorker` builds each iteration. -/
structure WorkData where
  timestamp : Rat
  random_data : List Rat
  worker_name : Nat
  deriving Repr, DecidableEq

/-- The `large_result` dict `BackgroundWorker._process_work` returns. -/
structure WorkResult where
  processed_data : WorkData
  additional_data : List Nat
  computation_result : List Rat
  deriving Repr, DecidableEq

/-- The instance state of a `BackgroundWorker` (its `thread` handle
lives in `THREAD_POOL`). -/
structure BackgroundWorker where
  name : Nat
  is_running : Bool
  work_queue : List WorkData
  results : List (Rat × WorkResult)
  deriving Repr, DecidableEq

/-- Combined state of `leak.py`: the module globals (`GLOBAL_CACHE`,
`EVENT_LISTENERS`, `THREAD_POOL`) and the `MemoryLeakSimulator`
instance.  `EVENT_LISTENERS` and `self.event_listeners` hold the same
five listener objects, so one list models both. -/
structure SimState where
  global_cache : List (RecordId × DataRecord)
  event_listeners : List EventListener
  thread_pool : List ThreadHandle
  processor : DataProcessor
  connMgr : ConnectionManager
  workers : List BackgroundWorker
  running : Bool
  deriving Repr, DecidableEq

/- ### `leak.py` — `DataProcessor.process_data_batch` -/

/-- One pass of the `for i in range(batch_size)` body of
`process_data_batch`: draw the record id timestamp, generate the large
data, build the record (second `datetime.now()`), store it in
`GLOBAL_CACHE` and `processed_records`, append the data to
`memory_intensive_data`, and extend `temp_files` with the 100 temp
objects of `_simulate_processing`. -/
def process_one_record (st : SimState) (ω τ : Nat → Rat) (p c i : Nat) :
    SimState × Nat × Nat :=
  let record_id : RecordId := (τ c, i)
  let large_data := generate_large_data ω p
  let record : DataRecord :=
    { id := record_id, timestamp := τ (c + 1), data := large_data,
      metadata := { processed := true, size := dataStrLen large_data },
      parent := none, children := [] }
  let (temps, c') := simulate_processing record τ (c + 2)
  ({ st with
      global_cache := dictInsert record_id record st.global_cache,
      processor := { st.processor with
        processed_records := dictInsert record_id record st.processor.processed_records,
        memory_intensive_data := st.processor.memory_intensive_data ++ [large_data],
        temp_files := st.processor.temp_files ++ temps } },
   p + generateCost, c')

/-- The record loop of `process_data_batch`, starting at index `i` with
`n` records still to process. -/
def process_batch_from (ω τ : Nat → Rat) : Nat → Nat → SimState → Nat → Nat →
    SimState × Nat × Nat
  | _, 0, st, p, c => (st, p, c)
  | i, n + 1, st, p, c =>
      let (st', p', c') := process_one_record st ω τ p c i
      process_batch_from ω τ (i + 1) n st' p' c'

/-- `DataProcessor.process_data_batch(batch_size)` (the
`"Processando lote"` log line it emits is accounted for in the
iteration trace). -/
def process_data_batch (st : SimState) (ω τ : Nat → Rat) (batch_size p c : Nat) :
    SimState × Nat × Nat :=
  process_batch_from ω τ 0 batch_size st p c

theorem process_one_record_spec (st : SimState) (ω τ : Nat → Rat) (p c i : Nat) :
    (process_one_record st ω τ p c i).2.1 = p + generateCost ∧
    (process_one_record st ω τ p c i).2.2 = c + 102 ∧
    (process_one_record st ω τ p c i).1.processor.memory_intensive_data.length =
      st.processor.memory_intensive_data.length + 1 ∧
    (process_one_record st ω τ p c i).1.processor.temp_files.length =
      st.processor.temp_files.length + 100 ∧
    (process_one_record st ω τ p c i).1.processor.connections = st.processor.connections ∧
    (process_one_record st ω τ p c i).1.event_listeners = st.event_listeners ∧
    (process_one_record st ω τ p c i).1.connMgr = st.connMgr ∧
    (process_one_record st ω τ p c i).1.thread_pool = st.thread_pool ∧
    (process_one_record st ω τ p c i).1.workers = st.workers ∧
    (process_one_record st ω τ p c i).1.running = st.running := by
  simp [process_one_record, simulate_processing]

theorem process_one_record_cache_ge (st : SimState) (ω τ : Nat → Rat) (p c i : Nat) :
    st.global_cache.length ≤ (process_one_record st ω τ p c i).1.global_cache.length ∧
    st.processor.processed_records.length ≤
      (process_one_record st ω τ p c i).1.processor.processed_records.length := by
  constructor
  · simpa [process_one_record] using dictInsert_length_ge _ _ st.global_cache
  · simpa [process_one_record] using dictInsert_length_ge _ _ st.processor.processed_records

theorem process_one_record_cache_le (st : SimState) (ω τ : Nat → Rat) (p c i : Nat) :
    (process_one_record st ω τ p c i).1.global_cache.length ≤ st.global_cache.length + 1 ∧
    (process_one_record st ω τ p c i).1.processor.processed_records.length ≤
      st.processor.processed_records.length + 1 := by
  constructor
  · simpa [process_one_record] using dictInsert_length_le _ _ st.global_cache
  · simpa [process_one_record] using dictInsert_length_le _ _ st.processor.processed_records

theorem mem_dictInsert {κ β : Type} [DecidableEq κ] (k : κ) (v : β) (d : List (κ × β)) :
    ∀ e ∈ dictInsert k v d, e = (k, v) ∨ e ∈ d := by
  induction d with
  | nil =>
      intro e he
      simp [dictInsert] at he
      left; exact he
  | cons x rest ih =>
      intro e he
      by_cases h : x.1 = k
      · simp [dictInsert, h] at he
        rcases he with he | he
        · left; exact he
        · right; simp [he]
      · simp [dictInsert, h] at he
        rcases he with he | he
        · right; simp [he]
        · rcases ih e he with h' | h'
          · left; exact h'
          · right; simp [h']

theorem mem_dictModify {κ β : Type} [DecidableEq κ] (k : κ) (f : β → β) (d : List (κ × β)) :
    ∀ e ∈ dictModify k f d, ∃ e' ∈ d, e.1 = e'.1 := by
  induction d with
  | nil => intro e he; simp [dictModify] at he
  | cons x rest ih =>
      intro e he
      by_cases h : x.1 = k
      · simp [dictModify, h] at he
        rcases he with he | he
        · exact ⟨x, by simp, by rw [he, h]⟩
        · exact ⟨e, by simp [he], rfl⟩
      · simp [dictModify, h] at he
        rcases he with he | he
        · exact ⟨x, by simp, by rw [he]⟩
        · rcases ih e he with ⟨e', he', heq⟩
          exact ⟨e', by simp [he'], heq⟩

theorem dictFind_dictInsert_self {κ β : Type} [DecidableEq κ] (k : κ) (v : β)
    (d : List (κ × β)) : dictFind k (dictInsert k v d) = some v := by
  induction d with
  | nil => simp [dictInsert, dictFind]
  | cons x rest ih =>
      by_cases h : x.1 = k
      · simp [dictInsert, h, dictFind]
      · simp [dictInsert, h, dictFind, ih]

theorem dictFind_dictInsert_ne {κ β : Type} [DecidableEq κ] (k k' : κ) (v : β)
    (d : List (κ × β)) (h : k' ≠ k) :
    dictFind k' (dictInsert k v d) = dictFind k' d := by
  have hk : ¬ (k = k') := fun hh => h hh.symm
  induction d with
  | nil => simp [dictInsert, dictFind, hk]
  | cons x rest ih =>
      by_cases hx : x.1 = k
      · have hx1 : ¬ (x.1 = k') := by rw [hx]; exact hk
        simp [dictInsert, hx, dictFind, hk, hx1]
      · by_cases hx' : x.1 = k'
        · simp [dictInsert, hx, dictFind, hx', h]
        · simp [dictInsert, hx, dictFind, hx', ih]

theorem dictFind_dictModify_self {κ β : Type} [DecidableEq κ] (k : κ) (f : β → β)
    (d : List (κ × β)) : dictFind k (dictModify k f d) = (dictFind k d).map f := by
  induction d with
  | nil => simp [dictModify, dictFind]
  | cons x rest ih =>
      by_cases h : x.1 = k
      · simp [dictModify, h, dictFind]
      · simp [dictModify, h, dictFind, ih]

theorem dictFind_dictModify_ne {κ β : Type} [DecidableEq κ] (k k' : κ) (f : β → β)
    (d : List (κ × β)) (h : k' ≠ k) :
    dictFind k' (dictModify k f d) = dictFind k' d := by
  have hk : ¬ (k = k') := fun hh => h hh.symm
  induction d with
  | nil => simp [dictModify]
  | cons x rest ih =>
      by_cases hx : x.1 = k
      · simp [dictModify, hx, dictFind, hk]
      · by_cases hx' : x.1 = k'
        · simp [dictModify, hx, dictFind, hx', h]
        · simp [dictModify, hx, dictFind, hx', ih]

/- ### Batch-level bookkeeping -/

theorem process_batch_from_succ (ω τ : Nat → Rat) (i n : Nat) (st : SimState)
    (p c : Nat) :
    process_batch_from ω τ i (n + 1) st p c =
      process_batch_from ω τ (i + 1) n (process_one_record st ω τ p c i).1
        (process_one_record st ω τ p c i).2.1 (process_one_record st ω τ p c i).2.2 :=
  rfl

theorem process_batch_from_spec (ω τ : Nat → Rat) (n : Nat) :
    ∀ (i : Nat) (st : SimState) (p c : Nat),
    (process_batch_from ω τ i n st p c).2.1 = p + generateCost * n ∧
    (process_batch_from ω τ i n st p c).2.2 = c + 102 * n ∧
    (process_batch_from ω τ i n st p c).1.processor.memory_intensive_data.length =
      st.processor.memory_intensive_data.length + n ∧
    (process_batch_from ω τ i n st p c).1.processor.temp_files.length =
      st.processor.temp_files.length + 100 * n ∧
    (process_batch_from ω τ i n st p c).1.processor.connections = st.processor.connections ∧
    (process_batch_from ω τ i n st p c).1.event_listeners = st.event_listeners ∧
    (process_batch_from ω τ i n st p c).1.connMgr = st.connMgr ∧
    (process_batch_from ω τ i n st p c).1.thread_pool = st.thread_pool ∧
    (process_batch_from ω τ i n st p c).1.workers = st.workers ∧
    (process_batch_from ω τ i n st p c).1.running = st.running ∧
    st.global_cache.length ≤ (process_batch_from ω τ i n st p c).1.global_cache.length ∧
    (process_batch_from ω τ i n st p c).1.global_cache.length ≤ st.global_cache.length + n ∧
    st.processor.processed_records.length ≤
      (process_batch_from ω τ i n st p c).1.processor.processed_records.length ∧
    (process_batch_from ω τ i n st p c).1.processor.processed_records.length ≤
      st.processor.processed_records.length + n := by
  induction n with
  | zero =>
      intro i st p c
      simp [process_batch_from]
  | succ n ih =>
      intro i st p c
      rw [process_batch_from_succ]
      obtain ⟨hp, hc, hmem, htemp, hconn, hlis, hmgr, hpool, hwork, hrun⟩ :=
        process_one_record_spec st ω τ p c i
      obtain ⟨hcg, hrg⟩ := process_one_record_cache_ge st ω τ p c i
      obtain ⟨hcl, hrl⟩ := process_one_record_cache_le st ω τ p c i
      obtain ⟨ihp, ihc, ihmem, ihtemp, ihconn, ihlis, ihmgr, ihpool, ihwork, ihrun,
        ihcg, ihcl, ihrg, ihrl⟩ :=
        ih (i + 1) (process_one_record st ω τ p c i).1
          (process_one_record st ω τ p c i).2.1 (process_one_record st ω τ p c i).2.2
      refine ⟨?_, ?_, ?_, ?_, ?_, ?_, ?_, ?_, ?_, ?_, ?_, ?_, ?_, ?_⟩
      · rw [ihp, hp, Nat.mul_succ]; ring
      · rw [ihc, hc, Nat.mul_succ]; ring
      · rw [ihmem, hmem]; ring
      · rw [ihtemp, htemp, Nat.mul_succ]; ring
      · exact ihconn.trans hconn
      · exact ihlis.trans hlis
      · exact ihmgr.trans hmgr
      · exact ihpool.trans hpool
      · exact ihwork.trans hwork
      · exact ihrun.trans hrun
      · omega
      · omega
      · omega
      · omega

/- ### Freshness of record keys under a strictly increasing clock -/

/-- All keys of a record dict carry a timestamp strictly below the
clock value at position `c`. -/
def KeysBelow (τ : Nat → Rat) (c : Nat) (d : List (RecordId × DataRecord)) : Prop :=
  ∀ e ∈ d, e.1.1 < τ c

theorem keysBelow_mono (τ : Nat → Rat) (hτ : StrictMono τ) {c c' : Nat}
    (hcc : c ≤ c') (d : List (RecordId × DataRecord)) (h : KeysBelow τ c d) :
    KeysBelow τ c' d := by
  intro e he
  exact lt_of_lt_of_le (h e he) (hτ.monotone hcc)

theorem process_one_record_fresh (st : SimState) (ω τ : Nat → Rat) (p c i : Nat)
    (hτ : StrictMono τ)
    (hc : KeysBelow τ c st.global_cache)
    (hr : KeysBelow τ c st.processor.processed_records) :
    (process_one_record st ω τ p c i).1.global_cache.length = st.global_cache.length + 1 ∧
    (process_one_record st ω τ p c i).1.processor.processed_records.length =
      st.processor.processed_records.length + 1 ∧
    KeysBelow τ (c + 102) (process_one_record st ω τ p c i).1.global_cache ∧
    KeysBelow τ (c + 102) (process_one_record st ω τ p c i).1.processor.processed_records := by
  have hfreshC : ∀ e ∈ st.global_cache, e.1 ≠ ((τ c, i) : RecordId) := by
    intro e he heq
    have h1 : e.1.1 = τ c := by rw [heq]
    exact absurd h1 (ne_of_lt (hc e he))
  have hfreshR : ∀ e ∈ st.processor.processed_records, e.1 ≠ ((τ c, i) : RecordId) := by
    intro e he heq
    have h1 : e.1.1 = τ c := by rw [heq]
    exact absurd h1 (ne_of_lt (hr e he))
  have hlt : τ c < τ (c + 102) := hτ (by omega)
  refine ⟨?_, ?_, ?_, ?_⟩
  · simpa [process_one_record] using
      dictInsert_length_of_not_mem _ _ st.global_cache hfreshC
  · simpa [process_one_record] using
      dictInsert_length_of_not_mem _ _ st.processor.processed_records hfreshR
  · intro e he
    simp only [process_one_record] at he
    rcases mem_dictInsert _ _ _ e he with h' | h'
    · rw [h']; exact hlt
    · exact lt_trans (hc e h') hlt
  · intro e he
    simp only [process_one_record] at he
    rcases mem_dictInsert _ _ _ e he with h' | h'
    · rw [h']; exact hlt
    · exact lt_trans (hr e h') hlt

theorem process_batch_from_fresh (ω τ : Nat → Rat) (hτ : StrictMono τ) (n : Nat) :
    ∀ (i : Nat) (st : SimState) (p c : Nat),
    KeysBelow τ c st.global_cache → KeysBelow τ c st.processor.processed_records →
    (process_batch_from ω τ i n st p c).1.global_cache.length =
      st.global_cache.length + n ∧
    (process_batch_from ω τ i n st p c).1.processor.processed_records.length =
      st.processor.processed_records.length + n ∧
    KeysBelow τ (c + 102 * n) (process_batch_from ω τ i n st p c).1.global_cache ∧
    KeysBelow τ (c + 102 * n)
      (process_batch_from ω τ i n st p c).1.processor.processed_records := by
  induction n with
  | zero =>
      intro i st p c hc hr
      simpa [process_batch_from] using ⟨hc, hr⟩
  | succ n ih =>
      intro i st p c hc hr
      rw [process_batch_from_succ]
      obtain ⟨h1, h2, h3, h4⟩ := process_one_record_fresh st ω τ p c i hτ hc hr
      have hc' : (process_one_record st ω τ p c i).2.2 = c + 102 :=
        (process_one_record_spec st ω τ p c i).2.1
      obtain ⟨ih1, ih2, ih3, ih4⟩ :=
        ih (i + 1) (process_one_record st ω τ p c i).1
          (process_one_record st ω τ p c i).2.1 (process_one_record st ω τ p c i).2.2
          (by rw [hc']; exact h3) (by rw [hc']; exact h4)
      have hceq : (process_one_record st ω τ p c i).2.2 + 102 * n = c + 102 * (n + 1) := by
        rw [hc', Nat.mul_succ]; ring
      refine ⟨?_, ?_, ?_, ?_⟩
      · rw [ih1, h1]; ring
      · rw [ih2, h2]; ring
      · rw [← hceq]; exact ih3
      · rw [← hceq]; exact ih4

/- ### Connection loop of `MemoryLeakSimulator.simulate_connections` -/

/-- The inner `for j in range(50)` of `simulate_connections`: build the
message dict (2000 payload draws) and `send_data` it. -/
def send_messages_from (ω : Nat → Rat) (connection_id : ConnId) :
    Nat → Nat → ConnectionManager → Nat → ConnectionManager × Nat
  | _, 0, mgr, p => (mgr, p)
  | j, n + 1, mgr, p =>
      let large_data : Msg := { message_id := j, payload := choices letters 2000 ω p }
      send_messages_from ω connection_id (j + 1) n
        (send_data mgr connection_id large_data) (p + 2000)

/-- The `for i in range(num_connections)` loop of `simulate_connections`:
make the connection id (one `time.time()`), create the connection, send
it 50 messages. -/
def simulate_connections_from (ω τ : Nat → Rat) :
    Nat → Nat → ConnectionManager → Nat → Nat → ConnectionManager × Nat × Nat
  | _, 0, mgr, p, c => (mgr, p, c)
  | i, n + 1, mgr, p, c =>
      let conn_id : ConnId := (i, τ c)
      let r1 := create_connection mgr conn_id τ (c + 1)
      let r2 := send_messages_from ω conn_id 0 50 r1.1 p
      simulate_connections_from ω τ (i + 1) n r2.1 r2.2 r1.2

/- ### Key-list facts for the dict primitives -/

/-- The keys of a dict in order. -/
def dictKeys {κ β : Type} (d : List (κ × β)) : List κ := d.map Prod.fst

theorem dictModify_dictKeys {κ β : Type} [DecidableEq κ] (k : κ) (f : β → β)
    (d : List (κ × β)) : dictKeys (dictModify k f d) = dictKeys d := by
  induction d with
  | nil => rfl
  | cons x rest ih =>
      by_cases h : x.1 = k
      · simp [dictModify, h, dictKeys]
      · simp [dictModify, h, dictKeys] at ih ⊢
        exact ih

theorem dictKeys_dictInsert_subset {κ β : Type} [DecidableEq κ] (k : κ) (v : β)
    (d : List (κ × β)) : ∀ x ∈ dictKeys (dictInsert k v d), x = k ∨ x ∈ dictKeys d := by
  intro x hx
  rcases List.mem_map.mp hx with ⟨e, he, hfst⟩
  rcases mem_dictInsert k v d e he with h | h
  · left; rw [← hfst, h]
  · right; exact List.mem_map.mpr ⟨e, h, hfst⟩

theorem dictFind_some_mem {κ β : Type} [DecidableEq κ] (k : κ) (v : β)
    (d : List (κ × β)) (h : dictFind k d = some v) : (k, v) ∈ d := by
  induction d with
  | nil => simp [dictFind] at h
  | cons x rest ih =>
      by_cases hx : x.1 = k
      · simp [dictFind, hx] at h
        have : x = (k, v) := by
          cases x; simp_all
        simp [this]
      · simp [dictFind, hx] at h
        simp [ih h]

theorem dictKeys_cons {κ β : Type} (x : κ × β) (rest : List (κ × β)) :
    dictKeys (x :: rest) = x.1 :: dictKeys rest := rfl

/-- Lookup in a dict with no duplicate keys finds exactly the stored
entry. -/
theorem dictFind_of_mem_nodup {κ β : Type} [DecidableEq κ] (k : κ) (v : β)
    (d : List (κ × β)) (hnd : (dictKeys d).Nodup) (h : (k, v) ∈ d) :
    dictFind k d = some v := by
  induction d with
  | nil => simp at h
  | cons x rest ih =>
      rw [dictKeys_cons, List.nodup_cons] at hnd
      rcases List.mem_cons.mp h with h' | h'
      · simp [dictFind, ← h']
      · have hx : ¬ (x.1 = k) := by
          intro hh
          apply hnd.1
          rw [hh]
          exact List.mem_map.mpr ⟨(k, v), h', rfl⟩
        simp [dictFind, hx]
        exact ih hnd.2 h'

theorem dictInsert_dictKeys_nodup {κ β : Type} [DecidableEq κ] (k : κ) (v : β)
    (d : List (κ × β)) (hnd : (dictKeys d).Nodup) :
    (dictKeys (dictInsert k v d)).Nodup := by
  induction d with
  | nil => simp [dictInsert, dictKeys]
  | cons x rest ih =>
      rw [dictKeys_cons, List.nodup_cons] at hnd
      by_cases h : x.1 = k
      · have e2 : dictKeys (dictInsert k v (x :: rest)) = k :: dictKeys rest := by
          simp [dictInsert, h, dictKeys]
        rw [e2, List.nodup_cons]
        exact ⟨h ▸ hnd.1, hnd.2⟩
      · have e2 : dictKeys (dictInsert k v (x :: rest)) =
            x.1 :: dictKeys (dictInsert k v rest) := by
          simp [dictInsert, h, dictKeys]
        rw [e2, List.nodup_cons]
        constructor
        · intro hb
          rcases dictKeys_dictInsert_subset k v rest x.1 hb with h' | h'
          · exact h h'
          · exact hnd.1 h'
        · exact ih hnd.2

/- ### Effects of the message loop -/

theorem send_data_dictKeys (mgr : ConnectionManager) (cid : ConnId) (m : Msg) :
    dictKeys (send_data mgr cid m).active_connections = dictKeys mgr.active_connections := by
  by_cases h : (dictFind cid mgr.active_connections).isSome
  · simp [send_data, h, dictModify_dictKeys]
  · simp [send_data, h]

theorem send_messages_from_dictKeys (ω : Nat → Rat) (cid : ConnId) (n : Nat) :
    ∀ (j : Nat) (mgr : ConnectionManager) (p : Nat),
    dictKeys (send_messages_from ω cid j n mgr p).1.active_connections =
      dictKeys mgr.active_connections := by
  induction n with
  | zero => intro j mgr p; rfl
  | succ n ih =>
      intro j mgr p
      rw [send_messages_from]
      rw [ih, send_data_dictKeys]

theorem send_messages_from_spec (ω : Nat → Rat) (cid : ConnId) (n : Nat) :
    ∀ (j : Nat) (mgr : ConnectionManager) (p : Nat),
    (send_messages_from ω cid j n mgr p).2 = p + 2000 * n ∧
    (send_messages_from ω cid j n mgr p).1.connection_history = mgr.connection_history ∧
    (∀ q : ConnId, q ≠ cid →
      dictFind q (send_messages_from ω cid j n mgr p).1.active_connections =
        dictFind q mgr.active_connections) ∧
    (∀ conn : Connection, dictFind cid mgr.active_connections = some conn →
      ∃ conn' : Connection,
        dictFind cid (send_messages_from ω cid j n mgr p).1.active_connections =
          some conn' ∧
        conn'.data_buffer.length = conn.data_buffer.length + n) ∧
    (dictFind cid mgr.active_connections = none →
      (send_messages_from ω cid j n mgr p).1 = mgr) := by
  induction n with
  | zero =>
      intro j mgr p
      exact ⟨rfl, rfl, fun q _ => rfl, fun conn h => ⟨conn, h, rfl⟩, fun _ => rfl⟩
  | succ n ih =>
      intro j mgr p
      rw [send_messages_from]
      rcases hfind : dictFind cid mgr.active_connections with _ | conn
      · have hnone : send_data mgr cid
            { message_id := j, payload := choices letters 2000 ω p } = mgr := by
          simp [send_data, hfind]
        rw [hnone]
        obtain ⟨ih1, ih2, ih3, ih4, ih5⟩ := ih (j + 1) mgr (p + 2000)
        refine ⟨by rw [ih1]; ring, ih2, ih3, ?_, fun _ => ih5 hfind⟩
        intro conn h
        exact absurd h (by simp)
      · set m : Msg := { message_id := j, payload := choices letters 2000 ω p } with hm
        have hsend : dictFind cid (send_data mgr cid m).active_connections =
            some (bufAppend m conn) := by
          simp [send_data, hfind, dictFind_dictModify_self]
        have hhist : (send_data mgr cid m).connection_history = mgr.connection_history := by
          simp [send_data, hfind]
        have hne : ∀ q : ConnId, q ≠ cid →
            dictFind q (send_data mgr cid m).active_connections =
              dictFind q mgr.active_connections := by
          intro q hq
          simp only [send_data, hfind, Option.isSome_some, if_true]
          exact dictFind_dictModify_ne cid q _ mgr.active_connections hq
        obtain ⟨ih1, ih2, ih3, ih4, ih5⟩ := ih (j + 1) (send_data mgr cid m) (p + 2000)
        refine ⟨by rw [ih1]; ring, by rw [ih2, hhist], ?_, ?_, ?_⟩
        · intro q hq
          rw [ih3 q hq, hne q hq]
        · intro conn1 h1
          simp only [Option.some.injEq] at h1
          obtain ⟨conn', hA, hB⟩ := ih4 (bufAppend m conn) hsend
          refine ⟨conn', hA, ?_⟩
          rw [hB, ← h1]
          simp [bufAppend]
          ring
        · intro h0
          exact absurd h0 (by simp)

/- ### Connection-loop invariants -/

/-- Every active connection's buffer holds exactly the 50 messages sent
when it was created (this is the steady state at iteration
boundaries). -/
def Buffers50 (mgr : ConnectionManager) : Prop :=
  ∀ e ∈ mgr.active_connections, e.2.data_buffer.length = 50

/-- Buffer size of the connection stored under `q` (0 when absent). -/
def bufLenAt (mgr : ConnectionManager) (q : ConnId) : Nat :=
  match dictFind q mgr.active_connections with
  | none => 0
  | some conn => conn.data_buffer.length

/-- All active-connection keys carry a `time.time()` value strictly
below the clock value at position `c`. -/
def ConnKeysBelow (τ : Nat → Rat) (c : Nat) (mgr : ConnectionManager) : Prop :=
  ∀ k ∈ dictKeys mgr.active_connections, k.2 < τ c

theorem connKeysBelow_mono (τ : Nat → Rat) (hτ : StrictMono τ) {c c' : Nat}
    (hcc : c ≤ c') (mgr : ConnectionManager) (h : ConnKeysBelow τ c mgr) :
    ConnKeysBelow τ c' mgr := by
  intro k hk
  exact lt_of_lt_of_le (h k hk) (hτ.monotone hcc)

theorem conn_step_spec (ω τ : Nat → Rat) (i : Nat) (mgr : ConnectionManager) (p c : Nat)
    (hN : (dictKeys mgr.active_connections).Nodup) (hB : Buffers50 mgr) :
    (send_messages_from ω (i, τ c) 0 50 (create_connection mgr (i, τ c) τ (c + 1)).1 p).2 =
      p + 100000 ∧
    (send_messages_from ω (i, τ c) 0 50
        (create_connection mgr (i, τ c) τ (c + 1)).1 p).1.connection_history =
      mgr.connection_history ++ [(i, τ c)] ∧
    (dictKeys (send_messages_from ω (i, τ c) 0 50
        (create_connection mgr (i, τ c) τ (c + 1)).1 p).1.active_connections).Nodup ∧
    Buffers50 (send_messages_from ω (i, τ c) 0 50
        (create_connection mgr (i, τ c) τ (c + 1)).1 p).1 ∧
    (∀ q : ConnId, bufLenAt mgr q ≤
      bufLenAt (send_messages_from ω (i, τ c) 0 50
        (create_connection mgr (i, τ c) τ (c + 1)).1 p).1 q) ∧
    mgr.active_connections.length ≤ (send_messages_from ω (i, τ c) 0 50
        (create_connection mgr (i, τ c) τ (c + 1)).1 p).1.active_connections.length ∧
    (send_messages_from ω (i, τ c) 0 50
        (create_connection mgr (i, τ c) τ (c + 1)).1 p).1.active_connections.length ≤
      mgr.active_connections.length + 1 := by
  obtain ⟨s1, s2, s3, s4, s5⟩ :=
    send_messages_from_spec ω (i, τ c) 50 0 (create_connection mgr (i, τ c) τ (c + 1)).1 p
  have hins : (create_connection mgr (i, τ c) τ (c + 1)).1.active_connections =
      dictInsert (i, τ c)
        { id := (i, τ c), created_at := τ (c + 1), data_buffer := [], status := true }
        mgr.active_connections := rfl
  have hhist1 : (create_connection mgr (i, τ c) τ (c + 1)).1.connection_history =
      mgr.connection_history ++ [(i, τ c)] := rfl
  have hfind1 : dictFind (i, τ c) (create_connection mgr (i, τ c) τ (c + 1)).1.active_connections =
      some { id := (i, τ c), created_at := τ (c + 1), data_buffer := [], status := true } := by
    rw [hins]; exact dictFind_dictInsert_self _ _ _
  have hN1 : (dictKeys (create_connection mgr (i, τ c) τ (c + 1)).1.active_connections).Nodup := by
    rw [hins]; exact dictInsert_dictKeys_nodup _ _ _ hN
  have hkeys2 : dictKeys (send_messages_from ω (i, τ c) 0 50
      (create_connection mgr (i, τ c) τ (c + 1)).1 p).1.active_connections =
      dictKeys (create_connection mgr (i, τ c) τ (c + 1)).1.active_connections :=
    send_messages_from_dictKeys ω (i, τ c) 50 0 _ p
  have hN2 : (dictKeys (send_messages_from ω (i, τ c) 0 50
      (create_connection mgr (i, τ c) τ (c + 1)).1 p).1.active_connections).Nodup := by
    rw [hkeys2]; exact hN1
  obtain ⟨conn', hfind2, hlen2⟩ := s4 _ hfind1
  have hlen2' : conn'.data_buffer.length = 50 := by simpa using hlen2
  have hlen_eq : (send_messages_from ω (i, τ c) 0 50
      (create_connection mgr (i, τ c) τ (c + 1)).1 p).1.active_connections.length =
      (create_connection mgr (i, τ c) τ (c + 1)).1.active_connections.length := by
    have := congrArg List.length hkeys2
    simpa [dictKeys] using this
  have hfind_ne : ∀ q : ConnId, q ≠ (i, τ c) →
      dictFind q (send_messages_from ω (i, τ c) 0 50
        (create_connection mgr (i, τ c) τ (c + 1)).1 p).1.active_connections =
      dictFind q mgr.active_connections := by
    intro q hq
    rw [s3 q hq, hins]
    exact dictFind_dictInsert_ne _ q _ _ hq
  refine ⟨by rw [s1], by rw [s2, hhist1], hN2, ?_, ?_, ?_, ?_⟩
  · -- Buffers50 after the step
    rintro ⟨q, conn⟩ he
    have hfe : dictFind q (send_messages_from ω (i, τ c) 0 50
        (create_connection mgr (i, τ c) τ (c + 1)).1 p).1.active_connections = some conn :=
      dictFind_of_mem_nodup q conn _ hN2 he
    by_cases hq : q = (i, τ c)
    · rw [hq] at hfe
      rw [hfe] at hfind2
      have : conn = conn' := by injection hfind2
      rw [this]
      exact hlen2'
    · rw [hfind_ne q hq] at hfe
      exact hB (q, conn) (dictFind_some_mem q conn _ hfe)
  · -- per-connection buffer monotonicity
    intro q
    by_cases hq : q = (i, τ c)
    · rw [hq]
      rcases hfm : dictFind (i, τ c) mgr.active_connections with _ | conn0
      · simp [bufLenAt, hfm, hfind2]
      · have h50 : conn0.data_buffer.length = 50 :=
          hB ((i, τ c), conn0) (dictFind_some_mem _ conn0 _ hfm)
        simp [bufLenAt, hfm, hfind2, h50, hlen2']
    · simp [bufLenAt, hfind_ne q hq]
  · rw [hlen_eq, hins]
    exact dictInsert_length_ge _ _ _
  · rw [hlen_eq, hins]
    exact dictInsert_length_le _ _ _

theorem conn_step_fresh (ω τ : Nat → Rat) (hτ : StrictMono τ) (i : Nat)
    (mgr : ConnectionManager) (p c : Nat) (hK : ConnKeysBelow τ c mgr) :
    (send_messages_from ω (i, τ c) 0 50
        (create_connection mgr (i, τ c) τ (c + 1)).1 p).1.active_connections.length =
      mgr.active_connections.length + 1 ∧
    ConnKeysBelow τ (c + 2) (send_messages_from ω (i, τ c) 0 50
        (create_connection mgr (i, τ c) τ (c + 1)).1 p).1 := by
  have hins : (create_connection mgr (i, τ c) τ (c + 1)).1.active_connections =
      dictInsert (i, τ c)
        { id := (i, τ c), created_at := τ (c + 1), data_buffer := [], status := true }
        mgr.active_connections := rfl
  have hkeys2 : dictKeys (send_messages_from ω (i, τ c) 0 50
      (create_connection mgr (i, τ c) τ (c + 1)).1 p).1.active_connections =
      dictKeys (create_connection mgr (i, τ c) τ (c + 1)).1.active_connections :=
    send_messages_from_dictKeys ω (i, τ c) 50 0 _ p
  have hfresh : ∀ e ∈ mgr.active_connections, e.1 ≠ ((i, τ c) : ConnId) := by
    intro e he heq
    have h1 : e.1.2 < τ c := hK e.1 (List.mem_map.mpr ⟨e, he, rfl⟩)
    have h2 : e.1.2 = τ c := by rw [heq]
    exact absurd h2 (ne_of_lt h1)
  have hlen_eq : (send_messages_from ω (i, τ c) 0 50
      (create_connection mgr (i, τ c) τ (c + 1)).1 p).1.active_connections.length =
      (create_connection mgr (i, τ c) τ (c + 1)).1.active_connections.length := by
    have := congrArg List.length hkeys2
    simpa [dictKeys] using this
  constructor
  · rw [hlen_eq, hins]
    exact dictInsert_length_of_not_mem _ _ _ hfresh
  · intro k hk
    rw [hkeys2, hins] at hk
    have hlt : τ c < τ (c + 2) := hτ (by omega)
    rcases dictKeys_dictInsert_subset _ _ _ k hk with h' | h'
    · rw [h']; exact hlt
    · exact lt_trans (hK k h') hlt

set_option maxRecDepth 8000 in
theorem simulate_connections_from_succ (ω τ : Nat → Rat) (i n : Nat)
    (mgr : ConnectionManager) (p c : Nat) :
    simulate_connections_from ω τ i (n + 1) mgr p c =
      simulate_connections_from ω τ (i + 1) n
        (send_messages_from ω (i, τ c) 0 50 (create_connection mgr (i, τ c) τ (c + 1)).1 p).1
        (send_messages_from ω (i, τ c) 0 50 (create_connection mgr (i, τ c) τ (c + 1)).1 p).2
        (create_connection mgr (i, τ c) τ (c + 1)).2 :=
  rfl

theorem simulate_connections_from_basic (ω τ : Nat → Rat) (n : Nat) :
    ∀ (i : Nat) (mgr : ConnectionManager) (p c : Nat),
    (dictKeys mgr.active_connections).Nodup → Buffers50 mgr →
    (simulate_connections_from ω τ i n mgr p c).2.1 = p + 100000 * n ∧
    (simulate_connections_from ω τ i n mgr p c).2.2 = c + 2 * n ∧
    (simulate_connections_from ω τ i n mgr p c).1.connection_history.length =
      mgr.connection_history.length + n ∧
    (dictKeys (simulate_connections_from ω τ i n mgr p c).1.active_connections).Nodup ∧
    Buffers50 (simulate_connections_from ω τ i n mgr p c).1 ∧
    (∀ q : ConnId,
      bufLenAt mgr q ≤ bufLenAt (simulate_connections_from ω τ i n mgr p c).1 q) ∧
    mgr.active_connections.length ≤
      (simulate_connections_from ω τ i n mgr p c).1.active_connections.length ∧
    (simulate_connections_from ω τ i n mgr p c).1.active_connections.length ≤
      mgr.active_connections.length + n := by
  induction n with
  | zero =>
      intro i mgr p c hN hB
      exact ⟨rfl, rfl, rfl, hN, hB, fun q => le_refl _, le_refl _, Nat.le_add_right _ 0⟩
  | succ n ih =>
      intro i mgr p c hN hB
      rw [simulate_connections_from_succ]
      obtain ⟨t1, t2, tN, tB, tmono, tge, tle⟩ := conn_step_spec ω τ i mgr p c hN hB
      have hc2 : (create_connection mgr (i, τ c) τ (c + 1)).2 = c + 2 := rfl
      obtain ⟨ih1, ih2, ih3, ihN, ihB, ihmono, ihge, ihle⟩ :=
        ih (i + 1)
          (send_messages_from ω (i, τ c) 0 50 (create_connection mgr (i, τ c) τ (c + 1)).1 p).1
          (send_messages_from ω (i, τ c) 0 50 (create_connection mgr (i, τ c) τ (c + 1)).1 p).2
          (create_connection mgr (i, τ c) τ (c + 1)).2 tN tB
      refine ⟨?_, ?_, ?_, ihN, ihB, ?_, ?_, ?_⟩
      · rw [ih1, t1, Nat.mul_succ]; ring
      · rw [ih2, hc2, Nat.mul_succ]; ring
      · rw [ih3, t2]
        simp
        ring
      · intro q
        exact le_trans (tmono q) (ihmono q)
      · omega
      · omega

theorem simulate_connections_from_fresh (ω τ : Nat → Rat) (hτ : StrictMono τ) (n : Nat) :
    ∀ (i : Nat) (mgr : ConnectionManager) (p c : Nat),
    ConnKeysBelow τ c mgr →
    (simulate_connections_from ω τ i n mgr p c).1.active_connections.length =
      mgr.active_connections.length + n ∧
    ConnKeysBelow τ (c + 2 * n) (simulate_connections_from ω τ i n mgr p c).1 := by
  induction n with
  | zero =>
      intro i mgr p c hK
      exact ⟨rfl, hK⟩
  | succ n ih =>
      intro i mgr p c hK
      rw [simulate_connections_from_succ]
      obtain ⟨f1, f2⟩ := conn_step_fresh ω τ hτ i mgr p c hK
      have hc2 : (create_connection mgr (i, τ c) τ (c + 1)).2 = c + 2 := rfl
      obtain ⟨ih1, ih2⟩ :=
        ih (i + 1)
          (send_messages_from ω (i, τ c) 0 50 (create_connection mgr (i, τ c) τ (c + 1)).1 p).1
          (send_messages_from ω (i, τ c) 0 50 (create_connection mgr (i, τ c) τ (c + 1)).1 p).2
          (create_connection mgr (i, τ c) τ (c + 1)).2 (by rw [hc2]; exact f2)
      constructor
      · rw [ih1, f1]; ring
      · have hceq : (create_connection mgr (i, τ c) τ (c + 1)).2 + 2 * n = c + 2 * (n + 1) := by
          rw [hc2, Nat.mul_succ]; ring
        rw [← hceq]
        exact ih2

/- ### Event loop of `run_simulation` -/

/-- `MemoryLeakSimulator._handle_event`: build the processed event (one
`datetime.now()` call, 100 handler draws) and append it to every
listener's buffer. -/
def handle_event (listeners : List EventListener) (event : EventData) (ω τ : Nat → Rat)
    (p c : Nat) : List EventListener × Nat × Nat :=
  let processed_event : ProcessedEvent :=
    { original := event, processed_at := τ c, handler_data := randomList 100 ω p }
  (listeners.map (fun l => { l with data_buffer := l.data_buffer ++ [processed_event] }),
   p + 100, c + 1)

/-- The `for _ in range(random.randint(10, 50))` event loop of
`run_simulation`: build the event dict (one `datetime.now()` call, 200
data draws) and hand it to `_handle_event`. -/
def fire_events (ω τ : Nat → Rat) : Nat → List EventListener → Nat → Nat →
    List EventListener × Nat × Nat
  | 0, ls, p, c => (ls, p, c)
  | n + 1, ls, p, c =>
      let event : EventData := { timestamp := τ c, data := randomList 200 ω p }
      let (ls', p', c') := handle_event ls event ω τ (p + 200) (c + 1)
      fire_events ω τ n ls' p' c'

theorem fire_events_spec (ω τ : Nat → Rat) (n : Nat) :
    ∀ (ls : List EventListener) (p c : Nat),
    (fire_events ω τ n ls p c).2.1 = p + 300 * n ∧
    (fire_events ω τ n ls p c).2.2 = c + 2 * n ∧
    (fire_events ω τ n ls p c).1.map (fun l => l.data_buffer.length) =
      ls.map (fun l => l.data_buffer.length + n) := by
  induction n with
  | zero =>
      intro ls p c
      refine ⟨rfl, rfl, ?_⟩
      simp [fire_events]
  | succ n ih =>
      intro ls p c
      rw [fire_events]
      obtain ⟨ih1, ih2, ih3⟩ := ih
        (ls.map (fun l => { l with data_buffer := l.data_buffer ++
          [{ original := { timestamp := τ c, data := randomList 200 ω p },
             processed_at := τ (c + 1), handler_data := randomList 100 ω (p + 200) }] }))
        (p + 200 + 100) (c + 1 + 1)
      refine ⟨?_, ?_, ?_⟩
      · rw [show (handle_event ls { timestamp := τ c, data := randomList 200 ω p } ω τ
            (p + 200) (c + 1)) = (ls.map (fun l => { l with data_buffer := l.data_buffer ++
          [{ original := { timestamp := τ c, data := randomList 200 ω p },
             processed_at := τ (c + 1), handler_data := randomList 100 ω (p + 200) }] }),
           p + 200 + 100, c + 1 + 1) from rfl]
        rw [ih1, Nat.mul_succ]; ring
      · rw [show (handle_event ls { timestamp := τ c, data := randomList 200 ω p } ω τ
            (p + 200) (c + 1)) = (ls.map (fun l => { l with data_buffer := l.data_buffer ++
          [{ original := { timestamp := τ c, data := randomList 200 ω p },
             processed_at := τ (c + 1), handler_data := randomList 100 ω (p + 200) }] }),
           p + 200 + 100, c + 1 + 1) from rfl]
        rw [ih2, Nat.mul_succ]; ring
      · rw [show (handle_event ls { timestamp := τ c, data := randomList 200 ω p } ω τ
            (p + 200) (c + 1)) = (ls.map (fun l => { l with data_buffer := l.data_buffer ++
          [{ original := { timestamp := τ c, data := randomList 200 ω p },
             processed_at := τ (c + 1), handler_data := randomList 100 ω (p + 200) }] }),
           p + 200 + 100, c + 1 + 1) from rfl]
        rw [ih3, List.map_map]
        apply List.map_congr_left
        intro l _
        simp
        ring

/- ### Log lines, trace events -/

/-- The log/print lines of `leak.py` relevant to the properties below. -/
inductive LogLine
  | startLine
  | iterLine (n : Nat)
  | batchLine (n : Nat)
  | rssLine
  | cacheLine (n : Nat)
  | recordsLine (n : Nat)
  | connsLine (n : Nat)
  | threadsLine (n : Nat)
  | psutilWarn
  | endLine
  | interruptedLine
  | cleanupLine
  deriving Repr, DecidableEq

/-- Events of the main loop's trace: head-of-loop condition checks, log
lines, and sleeps (carrying the requested duration in seconds). -/
inductive Ev
  | check (b : Bool)
  | log (l : LogLine)
  | sleep (d : Rat)
  deriving Repr, DecidableEq

/-- `MemoryLeakSimulator._log_memory_usage`.  With the
memory-inspection facility importable, the `try` body logs the
resident-memory line and the four container-size lines.  On
`ImportError` the whole `try` body — size lines included — is skipped
and a single warning is logged instead. -/
def log_memory_usage (avail : Bool) (st : SimState) : List Ev :=
  if avail then
    [Ev.log LogLine.rssLine,
     Ev.log (LogLine.cacheLine st.global_cache.length),
     Ev.log (LogLine.recordsLine st.processor.processed_records.length),
     Ev.log (LogLine.connsLine st.connMgr.active_connections.length),
     Ev.log (LogLine.threadsLine st.thread_pool.length)]
  else
    [Ev.log LogLine.psutilWarn]

/- ### One iteration of `run_simulation`'s main loop -/

/-- Stage 1 of a loop iteration:
`process_data_batch(random.randint(500, 1500))` run right after the
iteration log line consumed one clock position. -/
def iterStage1 (ω τ : Nat → Rat) (st : SimState) (p c : Nat) : SimState × Nat × Nat :=
  process_data_batch st ω τ (randint 500 1500 ω p) (p + 1) (c + 1)

/-- Stage 2: `simulate_connections(random.randint(5, 15))`. -/
def iterStage2 (ω τ : Nat → Rat) (st : SimState) (p c : Nat) :
    ConnectionManager × Nat × Nat :=
  simulate_connections_from ω τ 0 (randint 5 15 ω (iterStage1 ω τ st p c).2.1)
    (iterStage1 ω τ st p c).1.connMgr ((iterStage1 ω τ st p c).2.1 + 1)
    (iterStage1 ω τ st p c).2.2

/-- The simulator state after stage 2. -/
def iterState2 (ω τ : Nat → Rat) (st : SimState) (p c : Nat) : SimState :=
  { (iterStage1 ω τ st p c).1 with connMgr := (iterStage2 ω τ st p c).1 }

/-- Stage 3: the `for _ in range(random.randint(10, 50))` event loop. -/
def iterStage3 (ω τ : Nat → Rat) (st : SimState) (p c : Nat) :
    List EventListener × Nat × Nat :=
  fire_events ω τ (randint 10 50 ω (iterStage2 ω τ st p c).2.1)
    (iterState2 ω τ st p c).event_listeners ((iterStage2 ω τ st p c).2.1 + 1)
    (iterStage2 ω τ st p c).2.2

/-- The simulator state after stage 3. -/
def iterState3 (ω τ : Nat → Rat) (st : SimState) (p c : Nat) : SimState :=
  { iterState2 ω τ st p c with event_listeners := (iterStage3 ω τ st p c).1 }

/-- The body of `run_simulation`'s while loop (run after a successful
head check, with `c` the clock position following that check): the
iteration log line (one `time.time()` call), `process_data_batch` with
a random batch size, `simulate_connections` with a random connection
count, a random number of fired events, the memory report, and the
trailing `time.sleep(random.uniform(1, 3))`. -/
def run_iteration (avail : Bool) (ω τ : Nat → Rat) (iteration : Nat) (st : SimState)
    (p c : Nat) : SimState × Nat × Nat × List Ev :=
  (iterState3 ω τ st p c, (iterStage3 ω τ st p c).2.1 + 1, (iterStage3 ω τ st p c).2.2,
   Ev.log (LogLine.iterLine iteration) ::
     Ev.log (LogLine.batchLine (randint 500 1500 ω p)) ::
     (log_memory_usage avail (iterState3 ω τ st p c) ++
       [Ev.sleep (uniform 1 3 ω (iterStage3 ω τ st p c).2.1)]))

/- ### Setup: `__init__`, listeners, background workers -/

/-- `MemoryLeakSimulator.__init__` together with the module globals:
every container starts empty and `self.running = True`. -/
def initial_state : SimState :=
  { global_cache := [], event_listeners := [], thread_pool := [],
    processor := { processed_records := [], temp_files := [], connections := [],
                   memory_intensive_data := [] },
    connMgr := { active_connections := [], connection_history := [] },
    workers := [], running := true }

/-- `setup_event_listeners`: five listeners appended to
`self.event_listeners` and `EVENT_LISTENERS` (the same five objects;
one list models both). -/
def setup_event_listeners (st : SimState) : SimState :=
  { st with event_listeners := st.event_listeners ++
      (List.range 5).map (fun i => { name := i, data_buffer := [] }) }

/-- One pass of `start_background_workers`'s loop:
`BackgroundWorker(name)` plus `worker.start()` (spawn the thread —
never joined — and append its handle to `THREAD_POOL`), then
`self.workers.append(worker)`. -/
def worker_start (st : SimState) (name : Nat) : SimState :=
  { st with
      thread_pool := st.thread_pool ++ [{ worker_name := name, joined := false }],
      workers := st.workers ++
        [{ name := name, is_running := true, work_queue := [], results := [] }] }

/-- `start_background_workers(num_workers=3)`. -/
def start_background_workers (st : SimState) : SimState :=
  (List.range 3).foldl worker_start st

/- ### The main loop and `run_simulation` -/

/-- The `while time.time() < end_time and self.running` loop.  `flag k`
is the value of `self.running` observed at the `k`-th head check (the
flag is written only from outside the loop body).  Each head check
consumes one clock position.  `fuel` bounds how far the model unrolls
the loop; every property proved below holds for every fuel. -/
def run_loop (avail : Bool) (ω τ : Nat → Rat) (flag : Nat → Bool) (end_time : Rat) :
    Nat → Nat → SimState → Nat → Nat → SimState × Nat × Nat × List Ev
  | 0, _, st, p, c => (st, p, c, [])
  | fuel + 1, k, st, p, c =>
      let cond := decide (τ c < end_time) && flag k
      if cond then
        let r := run_iteration avail ω τ (k + 1) st p (c + 1)
        let rest := run_loop avail ω τ flag end_time fuel (k + 1) r.1 r.2.1 r.2.2.1
        (rest.1, rest.2.1, rest.2.2.1, Ev.check cond :: (r.2.2.2 ++ rest.2.2.2))
      else (st, p, c + 1, [Ev.check cond])

/-- `MemoryLeakSimulator.run_simulation(duration_minutes)`: the opening
log line, listener setup, three background workers,
`start_time = time.time()` (clock position 0),
`end_time = start_time + duration_minutes * 60`, the main loop, and the
closing log line. -/
def run_simulation (avail : Bool) (ω τ : Nat → Rat) (flag : Nat → Bool)
    (duration_minutes : Nat) (fuel : Nat) : SimState × Nat × Nat × List Ev :=
  let st1 := start_background_workers (setup_event_listeners initial_state)
  let end_time := τ 0 + duration_minutes * 60
  let r := run_loop avail ω τ flag end_time fuel 0 st1 0 1
  (r.1, r.2.1, r.2.2.1,
   Ev.log LogLine.startLine :: (r.2.2.2 ++ [Ev.log LogLine.endLine]))

/- ### `MemoryLeakSimulator.stop` and `main` -/

/-- `MemoryLeakSimulator.stop`: clear `self.running` and every worker's
`is_running` flag.  It performs no other operation: no container is
touched and no thread is joined. -/
def stop (st : SimState) : SimState :=
  { st with running := false,
            workers := st.workers.map (fun w => { w with is_running := false }) }

/-- `main()`: run the simulation for 5 minutes; a `KeyboardInterrupt`
(modelled by the `interrupted` input; it cuts the loop short via the
oracles) logs the interruption line; the `finally` block always calls
`stop` and logs the closing line. -/
def main_leak (avail : Bool) (ω τ : Nat → Rat) (flag : Nat → Bool) (fuel : Nat)
    (interrupted : Bool) : SimState × List Ev :=
  let r := run_simulation avail ω τ flag 5 fuel
  let tr := if interrupted then r.2.2.2 ++ [Ev.log LogLine.interruptedLine] else r.2.2.2
  (stop r.1, tr ++ [Ev.log LogLine.cleanupLine])

/- ### `BackgroundWorker`'s work loop -/

/-- Events of a worker's trace: the `while self.is_running` flag check,
the iteration's work, and its fixed `time.sleep(0.1)`. -/
inductive WEv
  | checkFlag (b : Bool)
  | iter
  | sleep (d : Rat)
  deriving Repr, DecidableEq

/-- The body of `BackgroundWorker._work_loop`: build `work_data` (one
`datetime.now()` call, 1000 draws), append it to `work_queue`, process
it (`_process_work`: 5000 + 500 draws), store the result in `results`
keyed by `time.time()`, then `time.sleep(0.1)`. -/
def worker_step (name : Nat) (ω τ : Nat → Rat) (w : BackgroundWorker) (p c : Nat) :
    BackgroundWorker × Nat × Nat :=
  let work_data : WorkData :=
    { timestamp := τ c, random_data := randomList 1000 ω p, worker_name := name }
  let result : WorkResult :=
    { processed_data := work_data, additional_data := choices letters 5000 ω (p + 1000),
      computation_result := randomList 500 ω (p + 6000) }
  ({ w with work_queue := w.work_queue ++ [work_data],
            results := dictInsert (τ (c + 1)) result w.results }, p + 6500, c + 2)

/-- `BackgroundWorker._work_loop`: `while self.is_running` — exactly
one flag check at the head of every pass; `signal k` is the flag value
observed at the `k`-th check (written only by `stop`, from the main
thread). -/
def work_loop (name : Nat) (ω τ : Nat → Rat) (signal : Nat → Bool) :
    Nat → Nat → BackgroundWorker → Nat → Nat → BackgroundWorker × List WEv
  | 0, _, w, _, _ => (w, [])
  | fuel + 1, k, w, p, c =>
      if signal k then
        let r := worker_step name ω τ w p c
        let rest := work_loop name ω τ signal fuel (k + 1) r.1 r.2.1 r.2.2
        (rest.1, WEv.checkFlag true :: WEv.iter :: WEv.sleep (1/10) :: rest.2)
      else (w, [WEv.checkFlag false])

/- ### Per-iteration draw bookkeeping -/

/-- The `random.randint(500, 1500)` batch size of an iteration whose
draws start at position `p`. -/
def iterBatchSize (ω : Nat → Rat) (p : Nat) : Nat := randint 500 1500 ω p

/-- The `random.randint(5, 15)` connection count of that iteration. -/
def iterConnCount (ω : Nat → Rat) (p : Nat) : Nat :=
  randint 5 15 ω (p + 1 + generateCost * iterBatchSize ω p)

/-- The `random.randint(10, 50)` event count of that iteration. -/
def iterEventCount (ω : Nat → Rat) (p : Nat) : Nat :=
  randint 10 50 ω (p + 2 + generateCost * iterBatchSize ω p + 100000 * iterConnCount ω p)

/-- Position of the `random.uniform(1, 3)` sleep draw of that
iteration. -/
def iterSleepPos (ω : Nat → Rat) (p : Nat) : Nat :=
  p + 3 + generateCost * iterBatchSize ω p + 100000 * iterConnCount ω p +
    300 * iterEventCount ω p

/-- Structural invariant the harness maintains on the connection
manager: distinct keys, and every stored buffer holds its 50 creation
messages. -/
def SimInv (st : SimState) : Prop :=
  (dictKeys st.connMgr.active_connections).Nodup ∧ Buffers50 st.connMgr

theorem iterStage1_spec (ω τ : Nat → Rat) (st : SimState) (p c : Nat) :
    (iterStage1 ω τ st p c).2.1 = p + 1 + generateCost * iterBatchSize ω p ∧
    (iterStage1 ω τ st p c).2.2 = c + 1 + 102 * iterBatchSize ω p ∧
    (iterStage1 ω τ st p c).1.processor.memory_intensive_data.length =
      st.processor.memory_intensive_data.length + iterBatchSize ω p ∧
    (iterStage1 ω τ st p c).1.processor.temp_files.length =
      st.processor.temp_files.length + 100 * iterBatchSize ω p ∧
    (iterStage1 ω τ st p c).1.processor.connections = st.processor.connections ∧
    (iterStage1 ω τ st p c).1.event_listeners = st.event_listeners ∧
    (iterStage1 ω τ st p c).1.connMgr = st.connMgr ∧
    (iterStage1 ω τ st p c).1.thread_pool = st.thread_pool ∧
    (iterStage1 ω τ st p c).1.workers = st.workers ∧
    (iterStage1 ω τ st p c).1.running = st.running ∧
    st.global_cache.length ≤ (iterStage1 ω τ st p c).1.global_cache.length ∧
    (iterStage1 ω τ st p c).1.global_cache.length ≤
      st.global_cache.length + iterBatchSize ω p ∧
    st.processor.processed_records.length ≤
      (iterStage1 ω τ st p c).1.processor.processed_records.length ∧
    (iterStage1 ω τ st p c).1.processor.processed_records.length ≤
      st.processor.processed_records.length + iterBatchSize ω p := by
  have h := process_batch_from_spec ω τ (iterBatchSize ω p) 0 st (p + 1) (c + 1)
  simpa [iterStage1, process_data_batch, iterBatchSize] using h

theorem iterStage2_spec (ω τ : Nat → Rat) (st : SimState) (p c : Nat) (hInv : SimInv st) :
    (iterStage2 ω τ st p c).2.1 =
      p + 2 + generateCost * iterBatchSize ω p + 100000 * iterConnCount ω p ∧
    (iterStage2 ω τ st p c).2.2 =
      c + 1 + 102 * iterBatchSize ω p + 2 * iterConnCount ω p ∧
    (iterStage2 ω τ st p c).1.connection_history.length =
      st.connMgr.connection_history.length + iterConnCount ω p ∧
    (dictKeys (iterStage2 ω τ st p c).1.active_connections).Nodup ∧
    Buffers50 (iterStage2 ω τ st p c).1 ∧
    (∀ q : ConnId, bufLenAt st.connMgr q ≤ bufLenAt (iterStage2 ω τ st p c).1 q) ∧
    st.connMgr.active_connections.length ≤
      (iterStage2 ω τ st p c).1.active_connections.length ∧
    (iterStage2 ω τ st p c).1.active_connections.length ≤
      st.connMgr.active_connections.length + iterConnCount ω p := by
  obtain ⟨hN, hB50⟩ := hInv
  obtain ⟨s1, s2, s3, s4, s5, s6, s7, s8, s9, s10, s11, s12, s13, s14⟩ :=
    iterStage1_spec ω τ st p c
  have hC : randint 5 15 ω ((iterStage1 ω τ st p c).2.1) = iterConnCount ω p := by
    rw [s1]; rfl
  obtain ⟨t1, t2, t3, t4, t5, t6, t7, t8⟩ :=
    simulate_connections_from_basic ω τ (randint 5 15 ω ((iterStage1 ω τ st p c).2.1)) 0
      ((iterStage1 ω τ st p c).1.connMgr) ((iterStage1 ω τ st p c).2.1 + 1)
      ((iterStage1 ω τ st p c).2.2) (by rw [s7]; exact hN) (by rw [s7]; exact hB50)
  refine ⟨?_, ?_, ?_, t4, t5, ?_, ?_, ?_⟩
  · rw [show (iterStage2 ω τ st p c).2.1 =
        (simulate_connections_from ω τ 0 (randint 5 15 ω ((iterStage1 ω τ st p c).2.1))
          ((iterStage1 ω τ st p c).1.connMgr) ((iterStage1 ω τ st p c).2.1 + 1)
          ((iterStage1 ω τ st p c).2.2)).2.1 from rfl, t1, hC, s1]
    ring
  · rw [show (iterStage2 ω τ st p c).2.2 =
        (simulate_connections_from ω τ 0 (randint 5 15 ω ((iterStage1 ω τ st p c).2.1))
          ((iterStage1 ω τ st p c).1.connMgr) ((iterStage1 ω τ st p c).2.1 + 1)
          ((iterStage1 ω τ st p c).2.2)).2.2 from rfl, t2, hC, s2]
  · rw [show (iterStage2 ω τ st p c).1 =
        (simulate_connections_from ω τ 0 (randint 5 15 ω ((iterStage1 ω τ st p c).2.1))
          ((iterStage1 ω τ st p c).1.connMgr) ((iterStage1 ω τ st p c).2.1 + 1)
          ((iterStage1 ω τ st p c).2.2)).1 from rfl, t3, s7, hC]
  · intro q
    rw [show (iterStage2 ω τ st p c).1 =
        (simulate_connections_from ω τ 0 (randint 5 15 ω ((iterStage1 ω τ st p c).2.1))
          ((iterStage1 ω τ st p c).1.connMgr) ((iterStage1 ω τ st p c).2.1 + 1)
          ((iterStage1 ω τ st p c).2.2)).1 from rfl, ← s7]
    exact t6 q
  · rw [show (iterStage2 ω τ st p c).1 =
        (simulate_connections_from ω τ 0 (randint 5 15 ω ((iterStage1 ω τ st p c).2.1))
          ((iterStage1 ω τ st p c).1.connMgr) ((iterStage1 ω τ st p c).2.1 + 1)
          ((iterStage1 ω τ st p c).2.2)).1 from rfl, ← s7]
    exact t7
  · rw [show (iterStage2 ω τ st p c).1 =
        (simulate_connections_from ω τ 0 (randint 5 15 ω ((iterStage1 ω τ st p c).2.1))
          ((iterStage1 ω τ st p c).1.connMgr) ((iterStage1 ω τ st p c).2.1 + 1)
          ((iterStage1 ω τ st p c).2.2)).1 from rfl, ← s7, ← hC]
    exact t8

theorem iterStage3_spec (ω τ : Nat → Rat) (st : SimState) (p c : Nat) (hInv : SimInv st) :
    (iterStage3 ω τ st p c).2.1 = iterSleepPos ω p ∧
    (iterStage3 ω τ st p c).2.2 =
      c + 1 + 102 * iterBatchSize ω p + 2 * iterConnCount ω p +
        2 * iterEventCount ω p ∧
    (iterStage3 ω τ st p c).1.map (fun l => l.data_buffer.length) =
      st.event_listeners.map (fun l => l.data_buffer.length + iterEventCount ω p) := by
  obtain ⟨u1, u2, u3, u4, u5, u6, u7, u8⟩ := iterStage2_spec ω τ st p c hInv
  obtain ⟨s1, s2, s3, s4, s5, s6, s7, s8, s9, s10, s11, s12, s13, s14⟩ :=
    iterStage1_spec ω τ st p c
  have hE : randint 10 50 ω ((iterStage2 ω τ st p c).2.1) = iterEventCount ω p := by
    rw [u1]; rfl
  have hls : (iterState2 ω τ st p c).event_listeners = st.event_listeners := by
    rw [show (iterState2 ω τ st p c).event_listeners =
      (iterStage1 ω τ st p c).1.event_listeners from rfl, s6]
  obtain ⟨f1, f2, f3⟩ :=
    fire_events_spec ω τ (randint 10 50 ω ((iterStage2 ω τ st p c).2.1))
      ((iterState2 ω τ st p c).event_listeners) ((iterStage2 ω τ st p c).2.1 + 1)
      ((iterStage2 ω τ st p c).2.2)
  refine ⟨?_, ?_, ?_⟩
  · rw [show (iterStage3 ω τ st p c).2.1 =
        (fire_events ω τ (randint 10 50 ω ((iterStage2 ω τ st p c).2.1))
          ((iterState2 ω τ st p c).event_listeners) ((iterStage2 ω τ st p c).2.1 + 1)
          ((iterStage2 ω τ st p c).2.2)).2.1 from rfl, f1, hE, u1, iterSleepPos]
    ring
  · rw [show (iterStage3 ω τ st p c).2.2 =
        (fire_events ω τ (randint 10 50 ω ((iterStage2 ω τ st p c).2.1))
          ((iterState2 ω τ st p c).event_listeners) ((iterStage2 ω τ st p c).2.1 + 1)
          ((iterStage2 ω τ st p c).2.2)).2.2 from rfl, f2, hE, u2]
  · rw [show (iterStage3 ω τ st p c).1 =
        (fire_events ω τ (randint 10 50 ω ((iterStage2 ω τ st p c).2.1))
          ((iterState2 ω τ st p c).event_listeners) ((iterStage2 ω τ st p c).2.1 + 1)
          ((iterStage2 ω τ st p c).2.2)).1 from rfl, f3, hE, hls]

theorem run_iteration_spec (avail : Bool) (ω τ : Nat → Rat) (k : Nat) (st : SimState)
    (p c : Nat) (hInv : SimInv st) :
    (run_iteration avail ω τ k st p c).2.1 = iterSleepPos ω p + 1 ∧
    (run_iteration avail ω τ k st p c).2.2.1 =
      c + 1 + 102 * iterBatchSize ω p + 2 * iterConnCount ω p +
        2 * iterEventCount ω p ∧
    (run_iteration avail ω τ k st p c).1.processor.memory_intensive_data.length =
      st.processor.memory_intensive_data.length + iterBatchSize ω p ∧
    (run_iteration avail ω τ k st p c).1.processor.temp_files.length =
      st.processor.temp_files.length + 100 * iterBatchSize ω p ∧
    (run_iteration avail ω τ k st p c).1.connMgr.connection_history.length =
      st.connMgr.connection_history.length + iterConnCount ω p ∧
    st.connMgr.active_connections.length ≤
      (run_iteration avail ω τ k st p c).1.connMgr.active_connections.length ∧
    (run_iteration avail ω τ k st p c).1.connMgr.active_connections.length ≤
      st.connMgr.active_connections.length + iterConnCount ω p ∧
    (∀ q : ConnId, bufLenAt st.connMgr q ≤
      bufLenAt (run_iteration avail ω τ k st p c).1.connMgr q) ∧
    (run_iteration avail ω τ k st p c).1.event_listeners.map
        (fun l => l.data_buffer.length) =
      st.event_listeners.map (fun l => l.data_buffer.length + iterEventCount ω p) ∧
    (run_iteration avail ω τ k st p c).1.thread_pool = st.thread_pool ∧
    (run_iteration avail ω τ k st p c).1.workers = st.workers ∧
    (run_iteration avail ω τ k st p c).1.running = st.running ∧
    st.global_cache.length ≤ (run_iteration avail ω τ k st p c).1.global_cache.length ∧
    (run_iteration avail ω τ k st p c).1.global_cache.length ≤
      st.global_cache.length + iterBatchSize ω p ∧
    st.processor.processed_records.length ≤
      (run_iteration avail ω τ k st p c).1.processor.processed_records.length ∧
    (run_iteration avail ω τ k st p c).1.processor.processed_records.length ≤
      st.processor.processed_records.length + iterBatchSize ω p ∧
    SimInv (run_iteration avail ω τ k st p c).1 ∧
    (run_iteration avail ω τ k st p c).2.2.2 =
      Ev.log (LogLine.iterLine k) :: Ev.log (LogLine.batchLine (iterBatchSize ω p)) ::
        (log_memory_usage avail (run_iteration avail ω τ k st p c).1 ++
          [Ev.sleep (uniform 1 3 ω (iterSleepPos ω p))]) := by
  obtain ⟨s1, s2, s3, s4, s5, s6, s7, s8, s9, s10, s11, s12, s13, s14⟩ :=
    iterStage1_spec ω τ st p c
  obtain ⟨u1, u2, u3, u4, u5, u6, u7, u8⟩ := iterStage2_spec ω τ st p c hInv
  obtain ⟨v1, v2, v3⟩ := iterStage3_spec ω τ st p c hInv
  refine ⟨?_, ?_, s3, s4, u3, u7, u8, u6, v3, s8, s9, s10, s11, s12, s13, s14,
    ⟨u4, u5⟩, ?_⟩
  · rw [show (run_iteration avail ω τ k st p c).2.1 =
      (iterStage3 ω τ st p c).2.1 + 1 from rfl, v1]
  · rw [show (run_iteration avail ω τ k st p c).2.2.1 =
      (iterStage3 ω τ st p c).2.2 from rfl, v2]
  · rw [show (run_iteration avail ω τ k st p c).2.2.2 =
      Ev.log (LogLine.iterLine k) :: Ev.log (LogLine.batchLine (iterBatchSize ω p)) ::
        (log_memory_usage avail (run_iteration avail ω τ k st p c).1 ++
          [Ev.sleep (uniform 1 3 ω ((iterStage3 ω τ st p c).2.1))]) from rfl, v1]

/-- Freshness invariant under a strictly increasing clock: every record
key and every connection key carries a timestamp strictly below the
clock frontier. -/
def FreshInv (τ : Nat → Rat) (c : Nat) (st : SimState) : Prop :=
  KeysBelow τ c st.global_cache ∧ KeysBelow τ c st.processor.processed_records ∧
    ConnKeysBelow τ c st.connMgr

theorem simulate_connections_from_pos (ω τ : Nat → Rat) (n : Nat) :
    ∀ (i : Nat) (mgr : ConnectionManager) (p c : Nat),
    (simulate_connections_from ω τ i n mgr p c).2.1 = p + 100000 * n ∧
    (simulate_connections_from ω τ i n mgr p c).2.2 = c + 2 * n := by
  induction n with
  | zero => intro i mgr p c; exact ⟨rfl, rfl⟩
  | succ n ih =>
      intro i mgr p c
      rw [simulate_connections_from_succ]
      obtain ⟨w1, _, _, _, _⟩ :=
        send_messages_from_spec ω (i, τ c) 50 0 (create_connection mgr (i, τ c) τ (c + 1)).1 p
      obtain ⟨ih1, ih2⟩ :=
        ih (i + 1)
          (send_messages_from ω (i, τ c) 0 50 (create_connection mgr (i, τ c) τ (c + 1)).1 p).1
          (send_messages_from ω (i, τ c) 0 50 (create_connection mgr (i, τ c) τ (c + 1)).1 p).2
          (create_connection mgr (i, τ c) τ (c + 1)).2
      constructor
      · rw [ih1, w1, Nat.mul_succ]; ring
      · rw [ih2, show (create_connection mgr (i, τ c) τ (c + 1)).2 = c + 2 from rfl,
          Nat.mul_succ]
        ring

theorem run_iteration_fresh (avail : Bool) (ω τ : Nat → Rat) (hτ : StrictMono τ)
    (k : Nat) (st : SimState) (p c : Nat) (hInv : SimInv st) (hF : FreshInv τ c st) :
    (run_iteration avail ω τ k st p c).1.global_cache.length =
      st.global_cache.length + iterBatchSize ω p ∧
    (run_iteration avail ω τ k st p c).1.processor.processed_records.length =
      st.processor.processed_records.length + iterBatchSize ω p ∧
    (run_iteration avail ω τ k st p c).1.connMgr.active_connections.length =
      st.connMgr.active_connections.length + iterConnCount ω p ∧
    FreshInv τ (run_iteration avail ω τ k st p c).2.2.1
      (run_iteration avail ω τ k st p c).1 := by
  obtain ⟨hFc, hFr, hFk⟩ := hF
  obtain ⟨s1, s2, s3, s4, s5, s6, s7, s8, s9, s10, s11, s12, s13, s14⟩ :=
    iterStage1_spec ω τ st p c
  obtain ⟨u1, u2, u3, u4, u5, u6, u7, u8⟩ := iterStage2_spec ω τ st p c hInv
  obtain ⟨v1, v2, v3⟩ := iterStage3_spec ω τ st p c hInv
  have hC : randint 5 15 ω ((iterStage1 ω τ st p c).2.1) = iterConnCount ω p := by
    rw [s1]; rfl
  obtain ⟨h1c, h1r, h1kc, h1kr⟩ :=
    process_batch_from_fresh ω τ hτ (iterBatchSize ω p) 0 st (p + 1) (c + 1)
      (keysBelow_mono τ hτ (Nat.le_succ c) _ hFc)
      (keysBelow_mono τ hτ (Nat.le_succ c) _ hFr)
  have hK1 : ConnKeysBelow τ ((iterStage1 ω τ st p c).2.2)
      ((iterStage1 ω τ st p c).1.connMgr) := by
    rw [s7, s2]
    exact connKeysBelow_mono τ hτ (by omega) st.connMgr hFk
  obtain ⟨h2len, h2k⟩ :=
    simulate_connections_from_fresh ω τ hτ (randint 5 15 ω ((iterStage1 ω τ st p c).2.1)) 0
      ((iterStage1 ω τ st p c).1.connMgr) ((iterStage1 ω τ st p c).2.1 + 1)
      ((iterStage1 ω τ st p c).2.2) hK1
  have hclock : (run_iteration avail ω τ k st p c).2.2.1 =
      c + 1 + 102 * iterBatchSize ω p + 2 * iterConnCount ω p +
        2 * iterEventCount ω p := by
    rw [show (run_iteration avail ω τ k st p c).2.2.1 =
      (iterStage3 ω τ st p c).2.2 from rfl, v2]
  refine ⟨?_, ?_, ?_, ?_, ?_, ?_⟩
  · have : (iterStage1 ω τ st p c).1.global_cache.length =
        st.global_cache.length + iterBatchSize ω p := by
      simpa [iterStage1, process_data_batch, iterBatchSize] using h1c
    exact this
  · have : (iterStage1 ω τ st p c).1.processor.processed_records.length =
        st.processor.processed_records.length + iterBatchSize ω p := by
      simpa [iterStage1, process_data_batch, iterBatchSize] using h1r
    exact this
  · have h2len' : (iterStage2 ω τ st p c).1.active_connections.length =
        (iterStage1 ω τ st p c).1.connMgr.active_connections.length +
          iterConnCount ω p := by
      rw [show (iterStage2 ω τ st p c).1 =
        (simulate_connections_from ω τ 0 (randint 5 15 ω ((iterStage1 ω τ st p c).2.1))
          ((iterStage1 ω τ st p c).1.connMgr) ((iterStage1 ω τ st p c).2.1 + 1)
          ((iterStage1 ω τ st p c).2.2)).1 from rfl, h2len, hC]
    rw [show (run_iteration avail ω τ k st p c).1.connMgr =
      (iterStage2 ω τ st p c).1 from rfl, h2len', s7]
  · -- cache keys stay below the final clock frontier
    rw [hclock]
    have hle : c + 1 + 102 * iterBatchSize ω p ≤
        c + 1 + 102 * iterBatchSize ω p + 2 * iterConnCount ω p +
          2 * iterEventCount ω p := by omega
    have h1kc' : KeysBelow τ (c + 1 + 102 * iterBatchSize ω p)
        ((iterStage1 ω τ st p c).1.global_cache) := by
      have : (c + 1) + 102 * iterBatchSize ω p = c + 1 + 102 * iterBatchSize ω p := rfl
      exact this ▸ h1kc
    exact keysBelow_mono τ hτ hle _ h1kc'
  · rw [hclock]
    have hle : c + 1 + 102 * iterBatchSize ω p ≤
        c + 1 + 102 * iterBatchSize ω p + 2 * iterConnCount ω p +
          2 * iterEventCount ω p := by omega
    exact keysBelow_mono τ hτ hle _ h1kr
  · rw [hclock]
    have h2k' : ConnKeysBelow τ
        (c + 1 + 102 * iterBatchSize ω p + 2 * iterConnCount ω p)
        ((iterStage2 ω τ st p c).1) := by
      have he : (iterStage1 ω τ st p c).2.2 + 2 * (randint 5 15 ω ((iterStage1 ω τ st p c).2.1)) =
          c + 1 + 102 * iterBatchSize ω p + 2 * iterConnCount ω p := by
        rw [s2, hC]
      rw [show (iterStage2 ω τ st p c).1 =
        (simulate_connections_from ω τ 0 (randint 5 15 ω ((iterStage1 ω τ st p c).2.1))
          ((iterStage1 ω τ st p c).1.connMgr) ((iterStage1 ω τ st p c).2.1 + 1)
          ((iterStage1 ω τ st p c).2.2)).1 from rfl, ← he]
      exact h2k
    have hle : c + 1 + 102 * iterBatchSize ω p + 2 * iterConnCount ω p ≤
        c + 1 + 102 * iterBatchSize ω p + 2 * iterConnCount ω p +
          2 * iterEventCount ω p := by omega
    exact connKeysBelow_mono τ hτ hle _ h2k'

/- ### Trace predicates -/

/-- Is this event a head-of-loop check? -/
def isCheckEv : Ev → Bool
  | Ev.check _ => true
  | _ => false

/-- Is this event a successful head check (an iteration begins)? -/
def isCheckTrueEv : Ev → Bool
  | Ev.check true => true
  | _ => false

/-- Is this event a sleep? -/
def isSleepEv : Ev → Bool
  | Ev.sleep _ => true
  | _ => false

/-- Is this event one of the memory-report lines logged by the `try`
body of `_log_memory_usage` (resident memory plus the four container
sizes)? -/
def isSizeReport : Ev → Bool
  | Ev.log LogLine.rssLine => true
  | Ev.log (LogLine.cacheLine _) => true
  | Ev.log (LogLine.recordsLine _) => true
  | Ev.log (LogLine.connsLine _) => true
  | Ev.log (LogLine.threadsLine _) => true
  | _ => false

/-- Is this event the psutil-unavailable warning line? -/
def isWarnEv : Ev → Bool
  | Ev.log LogLine.psutilWarn => true
  | _ => false

/-- Is this event a `"Processando lote"` line (one generate-and-store
cycle begins)? -/
def isBatchLineEv : Ev → Bool
  | Ev.log (LogLine.batchLine _) => true
  | _ => false

/-- Number of iterations begun in a trace. -/
def iterCount (tr : List Ev) : Nat := tr.countP isCheckTrueEv

/-- The sleep durations requested in a trace, in order. -/
def sleepDurations (tr : List Ev) : List Rat :=
  tr.filterMap (fun e => match e with | Ev.sleep d => some d | _ => none)

/-- The trace suffix strictly after the first failed head check. -/
def afterFirstFalseCheck : List Ev → List Ev
  | [] => []
  | Ev.check false :: rest => rest
  | _ :: rest => afterFirstFalseCheck rest

theorem afterFirstFalseCheck_append (l₁ l₂ : List Ev)
    (h : ∀ e ∈ l₁, isCheckEv e = false) :
    afterFirstFalseCheck (l₁ ++ l₂) = afterFirstFalseCheck l₂ := by
  induction l₁ with
  | nil => rfl
  | cons e rest ih =>
      have he : isCheckEv e = false := h e (by simp)
      have hrest : ∀ e' ∈ rest, isCheckEv e' = false := fun e' h' => h e' (by simp [h'])
      cases e with
      | check b => simp [isCheckEv] at he
      | log l => simpa [afterFirstFalseCheck] using ih hrest
      | sleep d => simpa [afterFirstFalseCheck] using ih hrest

/- ### The trace of one iteration -/

theorem run_iteration_trace_shape (avail : Bool) (ω τ : Nat → Rat) (k : Nat)
    (st : SimState) (p c : Nat) :
    (run_iteration avail ω τ k st p c).2.2.2 =
      Ev.log (LogLine.iterLine k) ::
        Ev.log (LogLine.batchLine (randint 500 1500 ω p)) ::
        (log_memory_usage avail (iterState3 ω τ st p c) ++
          [Ev.sleep (uniform 1 3 ω ((iterStage3 ω τ st p c).2.1))]) := rfl

theorem log_memory_usage_no_check (avail : Bool) (st : SimState) :
    ∀ e ∈ log_memory_usage avail st, isCheckEv e = false ∧ isSleepEv e = false := by
  intro e he
  cases avail <;> simp [log_memory_usage] at he
  · rw [he]; exact ⟨rfl, rfl⟩
  · rcases he with h | h | h | h | h <;> rw [h] <;> exact ⟨rfl, rfl⟩

theorem run_iteration_trace_no_check (avail : Bool) (ω τ : Nat → Rat) (k : Nat)
    (st : SimState) (p c : Nat) :
    ∀ e ∈ (run_iteration avail ω τ k st p c).2.2.2, isCheckEv e = false := by
  intro e he
  rw [run_iteration_trace_shape] at he
  rcases List.mem_cons.mp he with h | he'
  · rw [h]; rfl
  rcases List.mem_cons.mp he' with h | he''
  · rw [h]; rfl
  rcases List.mem_append.mp he'' with h | h
  · exact (log_memory_usage_no_check avail _ e h).1
  · simp at h
    rw [h]; rfl

theorem run_iteration_trace_counts (avail : Bool) (ω τ : Nat → Rat) (k : Nat)
    (st : SimState) (p c : Nat) :
    (run_iteration avail ω τ k st p c).2.2.2.countP isCheckTrueEv = 0 ∧
    (run_iteration avail ω τ k st p c).2.2.2.countP isSleepEv = 1 ∧
    (run_iteration avail ω τ k st p c).2.2.2.countP isBatchLineEv = 1 ∧
    sleepDurations (run_iteration avail ω τ k st p c).2.2.2 =
      [uniform 1 3 ω ((iterStage3 ω τ st p c).2.1)] := by
  rw [run_iteration_trace_shape]
  cases avail <;>
    simp [log_memory_usage, List.countP_append, List.countP_cons, sleepDurations,
      isCheckTrueEv, isSleepEv, isBatchLineEv]

theorem run_iteration_trace_lines_noavail (ω τ : Nat → Rat) (k : Nat)
    (st : SimState) (p c : Nat) :
    (run_iteration false ω τ k st p c).2.2.2.countP isSizeReport = 0 ∧
    (run_iteration false ω τ k st p c).2.2.2.countP isWarnEv = 1 := by
  rw [run_iteration_trace_shape]
  simp [log_memory_usage, List.countP_append, List.countP_cons, isSizeReport, isWarnEv]

/- ### Loop-level trace lemmas -/

theorem run_loop_succ_true (avail : Bool) (ω τ : Nat → Rat) (flag : Nat → Bool)
    (end_time : Rat) (fuel k : Nat) (st : SimState) (p c : Nat)
    (h : (decide (τ c < end_time) && flag k) = true) :
    run_loop avail ω τ flag end_time (fuel + 1) k st p c =
      ((run_loop avail ω τ flag end_time fuel (k + 1)
          (run_iteration avail ω τ (k + 1) st p (c + 1)).1
          (run_iteration avail ω τ (k + 1) st p (c + 1)).2.1
          (run_iteration avail ω τ (k + 1) st p (c + 1)).2.2.1).1,
       (run_loop avail ω τ flag end_time fuel (k + 1)
          (run_iteration avail ω τ (k + 1) st p (c + 1)).1
          (run_iteration avail ω τ (k + 1) st p (c + 1)).2.1
          (run_iteration avail ω τ (k + 1) st p (c + 1)).2.2.1).2.1,
       (run_loop avail ω τ flag end_time fuel (k + 1)
          (run_iteration avail ω τ (k + 1) st p (c + 1)).1
          (run_iteration avail ω τ (k + 1) st p (c + 1)).2.1
          (run_iteration avail ω τ (k + 1) st p (c + 1)).2.2.1).2.2.1,
       Ev.check true ::
         ((run_iteration avail ω τ (k + 1) st p (c + 1)).2.2.2 ++
          (run_loop avail ω τ flag end_time fuel (k + 1)
            (run_iteration avail ω τ (k + 1) st p (c + 1)).1
            (run_iteration avail ω τ (k + 1) st p (c + 1)).2.1
            (run_iteration avail ω τ (k + 1) st p (c + 1)).2.2.1).2.2.2)) := by
  rw [run_loop]
  rw [h]
  simp

theorem run_loop_succ_false (avail : Bool) (ω τ : Nat → Rat) (flag : Nat → Bool)
    (end_time : Rat) (fuel k : Nat) (st : SimState) (p c : Nat)
    (h : (decide (τ c < end_time) && flag k) = false) :
    run_loop avail ω τ flag end_time (fuel + 1) k st p c =
      (st, p, c + 1, [Ev.check false]) := by
  rw [run_loop]
  rw [h]
  simp

theorem run_iteration_preserves (avail : Bool) (ω τ : Nat → Rat) (k : Nat)
    (st : SimState) (p c : Nat) :
    (run_iteration avail ω τ k st p c).1.thread_pool = st.thread_pool ∧
    (run_iteration avail ω τ k st p c).1.workers = st.workers ∧
    (run_iteration avail ω τ k st p c).1.running = st.running := by
  obtain ⟨_, _, _, _, _, _, _, s8, s9, s10, _⟩ := iterStage1_spec ω τ st p c
  exact ⟨s8, s9, s10⟩

theorem run_loop_after_empty (avail : Bool) (ω τ : Nat → Rat) (flag : Nat → Bool)
    (end_time : Rat) : ∀ (fuel k : Nat) (st : SimState) (p c : Nat),
    afterFirstFalseCheck (run_loop avail ω τ flag end_time fuel k st p c).2.2.2 = [] := by
  intro fuel
  induction fuel with
  | zero => intro k st p c; rfl
  | succ fuel ih =>
      intro k st p c
      cases h : (decide (τ c < end_time) && flag k) with
      | false => rw [run_loop_succ_false _ _ _ _ _ _ _ _ _ _ h]; rfl
      | true =>
          rw [run_loop_succ_true _ _ _ _ _ _ _ _ _ _ h]
          show afterFirstFalseCheck
            ((run_iteration avail ω τ (k + 1) st p (c + 1)).2.2.2 ++ _) = []
          rw [afterFirstFalseCheck_append _ _
            (run_iteration_trace_no_check avail ω τ (k + 1) st p (c + 1))]
          exact ih (k + 1) _ _ _

theorem run_loop_counts (avail : Bool) (ω τ : Nat → Rat) (flag : Nat → Bool)
    (end_time : Rat) : ∀ (fuel k : Nat) (st : SimState) (p c : Nat),
    (run_loop avail ω τ flag end_time fuel k st p c).2.2.2.countP isSleepEv =
      (run_loop avail ω τ flag end_time fuel k st p c).2.2.2.countP isCheckTrueEv ∧
    (run_loop avail ω τ flag end_time fuel k st p c).2.2.2.countP isBatchLineEv =
      (run_loop avail ω τ flag end_time fuel k st p c).2.2.2.countP isCheckTrueEv := by
  intro fuel
  induction fuel with
  | zero => intro k st p c; exact ⟨rfl, rfl⟩
  | succ fuel ih =>
      intro k st p c
      cases h : (decide (τ c < end_time) && flag k) with
      | false =>
          rw [run_loop_succ_false _ _ _ _ _ _ _ _ _ _ h]
          exact ⟨rfl, rfl⟩
      | true =>
          rw [run_loop_succ_true _ _ _ _ _ _ _ _ _ _ h]
          obtain ⟨c1, c2, c3, _⟩ :=
            run_iteration_trace_counts avail ω τ (k + 1) st p (c + 1)
          obtain ⟨ih1, ih2⟩ := ih (k + 1) (run_iteration avail ω τ (k + 1) st p (c + 1)).1
            (run_iteration avail ω τ (k + 1) st p (c + 1)).2.1
            (run_iteration avail ω τ (k + 1) st p (c + 1)).2.2.1
          constructor
          · simp [List.countP_cons, List.countP_append, c1, c2, ih1,
              isSleepEv, isCheckTrueEv]
            omega
          · simp [List.countP_cons, List.countP_append, c1, c3, ih2,
              isBatchLineEv, isCheckTrueEv]
            omega

theorem run_loop_flag_bound (avail : Bool) (ω τ : Nat → Rat) (flag : Nat → Bool)
    (end_time : Rat) : ∀ (fuel k : Nat) (st : SimState) (p c : Nat) (j : Nat),
    flag j = false → k ≤ j →
    (run_loop avail ω τ flag end_time fuel k st p c).2.2.2.countP isCheckTrueEv ≤
      j - k := by
  intro fuel
  induction fuel with
  | zero =>
      intro k st p c j hj hkj
      simp [run_loop]
  | succ fuel ih =>
      intro k st p c j hj hkj
      cases h : (decide (τ c < end_time) && flag k) with
      | false =>
          rw [run_loop_succ_false _ _ _ _ _ _ _ _ _ _ h]
          simp [isCheckTrueEv]
      | true =>
          have hfk : flag k = true := by
            by_contra hcon
            have hfalse : flag k = false := by
              cases hfl : flag k
              · rfl
              · exact absurd hfl hcon
            rw [hfalse, Bool.and_false] at h
            exact Bool.noConfusion h
          have hkj' : k ≠ j := by
            intro hh
            rw [hh, hj] at hfk
            exact Bool.noConfusion hfk
          rw [run_loop_succ_true _ _ _ _ _ _ _ _ _ _ h]
          obtain ⟨c1, _, _, _⟩ :=
            run_iteration_trace_counts avail ω τ (k + 1) st p (c + 1)
          have hrec := ih (k + 1) (run_iteration avail ω τ (k + 1) st p (c + 1)).1
            (run_iteration avail ω τ (k + 1) st p (c + 1)).2.1
            (run_iteration avail ω τ (k + 1) st p (c + 1)).2.2.1 j hj (by omega)
          simp [List.countP_cons, List.countP_append, c1, isCheckTrueEv]
          omega

theorem run_loop_avail_eq (ω τ : Nat → Rat) (flag : Nat → Bool) (end_time : Rat) :
    ∀ (fuel k : Nat) (st : SimState) (p c : Nat),
    (run_loop false ω τ flag end_time fuel k st p c).1 =
      (run_loop true ω τ flag end_time fuel k st p c).1 ∧
    (run_loop false ω τ flag end_time fuel k st p c).2.1 =
      (run_loop true ω τ flag end_time fuel k st p c).2.1 ∧
    (run_loop false ω τ flag end_time fuel k st p c).2.2.1 =
      (run_loop true ω τ flag end_time fuel k st p c).2.2.1 ∧
    (run_loop false ω τ flag end_time fuel k st p c).2.2.2.countP isCheckTrueEv =
      (run_loop true ω τ flag end_time fuel k st p c).2.2.2.countP isCheckTrueEv := by
  intro fuel
  induction fuel with
  | zero => intro k st p c; exact ⟨rfl, rfl, rfl, rfl⟩
  | succ fuel ih =>
      intro k st p c
      cases h : (decide (τ c < end_time) && flag k) with
      | false =>
          rw [run_loop_succ_false false _ _ _ _ _ _ _ _ _ h,
            run_loop_succ_false true _ _ _ _ _ _ _ _ _ h]
          exact ⟨rfl, rfl, rfl, rfl⟩
      | true =>
          rw [run_loop_succ_true false _ _ _ _ _ _ _ _ _ h,
            run_loop_succ_true true _ _ _ _ _ _ _ _ _ h]
          have hst : (run_iteration false ω τ (k + 1) st p (c + 1)).1 =
              (run_iteration true ω τ (k + 1) st p (c + 1)).1 := rfl
          have hp : (run_iteration false ω τ (k + 1) st p (c + 1)).2.1 =
              (run_iteration true ω τ (k + 1) st p (c + 1)).2.1 := rfl
          have hc : (run_iteration false ω τ (k + 1) st p (c + 1)).2.2.1 =
              (run_iteration true ω τ (k + 1) st p (c + 1)).2.2.1 := rfl
          rw [hst, hp, hc]
          obtain ⟨ih1, ih2, ih3, ih4⟩ := ih (k + 1)
            (run_iteration true ω τ (k + 1) st p (c + 1)).1
            (run_iteration true ω τ (k + 1) st p (c + 1)).2.1
            (run_iteration true ω τ (k + 1) st p (c + 1)).2.2.1
          obtain ⟨cf, _, _, _⟩ :=
            run_iteration_trace_counts false ω τ (k + 1) st p (c + 1)
          obtain ⟨ct, _, _, _⟩ :=
            run_iteration_trace_counts true ω τ (k + 1) st p (c + 1)
          refine ⟨ih1, ih2, ih3, ?_⟩
          simp [List.countP_cons, List.countP_append, cf, ct, ih4, isCheckTrueEv]

theorem run_loop_size_lines (ω τ : Nat → Rat) (flag : Nat → Bool) (end_time : Rat) :
    ∀ (fuel k : Nat) (st : SimState) (p c : Nat),
    (run_loop false ω τ flag end_time fuel k st p c).2.2.2.countP isSizeReport = 0 ∧
    (run_loop false ω τ flag end_time fuel k st p c).2.2.2.countP isWarnEv =
      (run_loop false ω τ flag end_time fuel k st p c).2.2.2.countP isCheckTrueEv := by
  intro fuel
  induction fuel with
  | zero => intro k st p c; exact ⟨rfl, rfl⟩
  | succ fuel ih =>
      intro k st p c
      cases h : (decide (τ c < end_time) && flag k) with
      | false =>
          rw [run_loop_succ_false _ _ _ _ _ _ _ _ _ _ h]
          exact ⟨rfl, rfl⟩
      | true =>
          rw [run_loop_succ_true _ _ _ _ _ _ _ _ _ _ h]
          obtain ⟨l1, l2⟩ := run_iteration_trace_lines_noavail ω τ (k + 1) st p (c + 1)
          obtain ⟨c1, _, _, _⟩ :=
            run_iteration_trace_counts false ω τ (k + 1) st p (c + 1)
          obtain ⟨ih1, ih2⟩ := ih (k + 1) (run_iteration false ω τ (k + 1) st p (c + 1)).1
            (run_iteration false ω τ (k + 1) st p (c + 1)).2.1
            (run_iteration false ω τ (k + 1) st p (c + 1)).2.2.1
          constructor
          · simp [List.countP_cons, List.countP_append, l1, ih1, isSizeReport]
          · simp [List.countP_cons, List.countP_append, l1, l2, c1, ih1, ih2,
              isSizeReport, isWarnEv, isCheckTrueEv]
            omega

theorem run_loop_sleep_uniform (avail : Bool) (ω τ : Nat → Rat) (flag : Nat → Bool)
    (end_time : Rat) : ∀ (fuel k : Nat) (st : SimState) (p c : Nat) (d : Rat),
    d ∈ sleepDurations (run_loop avail ω τ flag end_time fuel k st p c).2.2.2 →
    ∃ q : Nat, d = uniform 1 3 ω q := by
  intro fuel
  induction fuel with
  | zero =>
      intro k st p c d hd
      simp [run_loop, sleepDurations] at hd
  | succ fuel ih =>
      intro k st p c d hd
      cases h : (decide (τ c < end_time) && flag k) with
      | false =>
          rw [run_loop_succ_false _ _ _ _ _ _ _ _ _ _ h] at hd
          simp [sleepDurations] at hd
      | true =>
          rw [run_loop_succ_true _ _ _ _ _ _ _ _ _ _ h] at hd
          obtain ⟨_, _, _, c4⟩ :=
            run_iteration_trace_counts avail ω τ (k + 1) st p (c + 1)
          rw [show sleepDurations (Ev.check true ::
              ((run_iteration avail ω τ (k + 1) st p (c + 1)).2.2.2 ++
               (run_loop avail ω τ flag end_time fuel (k + 1)
                 (run_iteration avail ω τ (k + 1) st p (c + 1)).1
                 (run_iteration avail ω τ (k + 1) st p (c + 1)).2.1
                 (run_iteration avail ω τ (k + 1) st p (c + 1)).2.2.1).2.2.2)) =
            sleepDurations ((run_iteration avail ω τ (k + 1) st p (c + 1)).2.2.2) ++
              sleepDurations ((run_loop avail ω τ flag end_time fuel (k + 1)
                (run_iteration avail ω τ (k + 1) st p (c + 1)).1
                (run_iteration avail ω τ (k + 1) st p (c + 1)).2.1
                (run_iteration avail ω τ (k + 1) st p (c + 1)).2.2.1).2.2.2)
            from by simp [sleepDurations]] at hd
          rcases List.mem_append.mp hd with h' | h'
          · rw [c4] at h'
            simp at h'
            exact ⟨(iterStage3 ω τ st p (c + 1)).2.1, h'⟩
          · exact ih (k + 1) _ _ _ d h'

theorem run_loop_preserves (avail : Bool) (ω τ : Nat → Rat) (flag : Nat → Bool)
    (end_time : Rat) : ∀ (fuel k : Nat) (st : SimState) (p c : Nat),
    (run_loop avail ω τ flag end_time fuel k st p c).1.thread_pool = st.thread_pool ∧
    (run_loop avail ω τ flag end_time fuel k st p c).1.workers = st.workers := by
  intro fuel
  induction fuel with
  | zero => intro k st p c; exact ⟨rfl, rfl⟩
  | succ fuel ih =>
      intro k st p c
      cases h : (decide (τ c < end_time) && flag k) with
      | false =>
          rw [run_loop_succ_false _ _ _ _ _ _ _ _ _ _ h]
          exact ⟨rfl, rfl⟩
      | true =>
          rw [run_loop_succ_true _ _ _ _ _ _ _ _ _ _ h]
          obtain ⟨hp, hw, _⟩ := run_iteration_preserves avail ω τ (k + 1) st p (c + 1)
          obtain ⟨ih1, ih2⟩ := ih (k + 1) (run_iteration avail ω τ (k + 1) st p (c + 1)).1
            (run_iteration avail ω τ (k + 1) st p (c + 1)).2.1
            (run_iteration avail ω τ (k + 1) st p (c + 1)).2.2.1
          exact ⟨ih1.trans hp, ih2.trans hw⟩

/- ### The canonical loop-body trajectory -/

/-- The state of `run_simulation` just before the first head check:
listeners and workers set up (the `start_time = time.time()` call
consumed clock position 0, so the loop starts at clock position 1 and
rng position 0). -/
def sim_start : SimState := start_background_workers (setup_event_listeners initial_state)

/-- The harness state after `N` executed loop iterations, together with
the rng and clock positions (each head check consumes one clock
position before its body runs).  This is the state trajectory of
`run_loop` for as long as the loop condition keeps passing. -/
def sim_state_after (avail : Bool) (ω τ : Nat → Rat) : Nat → SimState × Nat × Nat
  | 0 => (sim_start, 0, 1)
  | N + 1 =>
      let s := sim_state_after avail ω τ N
      let r := run_iteration avail ω τ (N + 1) s.1 s.2.1 (s.2.2 + 1)
      (r.1, r.2.1, r.2.2.1)

theorem sim_start_conn : sim_start.connMgr.active_connections = [] := rfl

theorem sim_start_inv : SimInv sim_start := by
  constructor
  · rw [sim_start_conn]
    simp [dictKeys]
  · intro e he
    rw [sim_start_conn] at he
    simp at he

theorem sim_state_after_inv (avail : Bool) (ω τ : Nat → Rat) (N : Nat) :
    SimInv (sim_state_after avail ω τ N).1 := by
  induction N with
  | zero => exact sim_start_inv
  | succ N ih =>
      obtain ⟨_, _, _, _, _, _, _, _, _, _, _, _, _, _, _, _, hInv, _⟩ :=
        run_iteration_spec avail ω τ (N + 1) (sim_state_after avail ω τ N).1
          (sim_state_after avail ω τ N).2.1 ((sim_state_after avail ω τ N).2.2 + 1) ih
      exact hInv

theorem freshInv_mono (τ : Nat → Rat) (hτ : StrictMono τ) {c c' : Nat} (hcc : c ≤ c')
    (st : SimState) (h : FreshInv τ c st) : FreshInv τ c' st :=
  ⟨keysBelow_mono τ hτ hcc _ h.1, keysBelow_mono τ hτ hcc _ h.2.1,
   connKeysBelow_mono τ hτ hcc _ h.2.2⟩

theorem sim_start_fresh (τ : Nat → Rat) (c : Nat) : FreshInv τ c sim_start := by
  refine ⟨?_, ?_, ?_⟩
  · intro e he
    have hgc : sim_start.global_cache = [] := rfl
    rw [hgc] at he
    simp at he
  · intro e he
    have hpr : sim_start.processor.processed_records = [] := rfl
    rw [hpr] at he
    simp at he
  · intro e he
    rw [sim_start_conn] at he
    simp [dictKeys] at he

theorem sim_state_after_fresh (avail : Bool) (ω τ : Nat → Rat) (hτ : StrictMono τ)
    (N : Nat) :
    FreshInv τ (sim_state_after avail ω τ N).2.2 (sim_state_after avail ω τ N).1 := by
  induction N with
  | zero => exact sim_start_fresh τ 1
  | succ N ih =>
      obtain ⟨_, _, _, hF⟩ :=
        run_iteration_fresh avail ω τ hτ (N + 1) (sim_state_after avail ω τ N).1
          (sim_state_after avail ω τ N).2.1 ((sim_state_after avail ω τ N).2.2 + 1)
          (sim_state_after_inv avail ω τ N)
          (freshInv_mono τ hτ (Nat.le_succ _) _ ih)
      exact hF

/- ### The worker trajectory and its loop trace -/

/-- `BackgroundWorker.__init__(name)`. -/
def worker_init (name : Nat) : BackgroundWorker :=
  { name := name, is_running := true, work_queue := [], results := [] }

/-- A worker's state after `N` iterations of `_work_loop` (each
iteration consumes 6500 draws and two clock positions from the
worker's own oracle streams). -/
def worker_state_after (name : Nat) (ω τ : Nat → Rat) : Nat → BackgroundWorker × Nat × Nat
  | 0 => (worker_init name, 0, 0)
  | N + 1 =>
      let s := worker_state_after name ω τ N
      worker_step name ω τ s.1 s.2.1 s.2.2

theorem worker_step_spec (name : Nat) (ω τ : Nat → Rat) (w : BackgroundWorker)
    (p c : Nat) :
    (worker_step name ω τ w p c).1.work_queue.length = w.work_queue.length + 1 ∧
    w.results.length ≤ (worker_step name ω τ w p c).1.results.length ∧
    (worker_step name ω τ w p c).1.results.length ≤ w.results.length + 1 ∧
    (worker_step name ω τ w p c).1.is_running = w.is_running := by
  refine ⟨by simp [worker_step], ?_, ?_, rfl⟩
  · simpa [worker_step] using dictInsert_length_ge (τ (c + 1)) _ w.results
  · simpa [worker_step] using dictInsert_length_le (τ (c + 1)) _ w.results

/-- Is this worker event a stop-flag check? -/
def isWCheckEv : WEv → Bool
  | WEv.checkFlag _ => true
  | _ => false

/-- Is this worker event a completed work pass? -/
def isWIterEv : WEv → Bool
  | WEv.iter => true
  | _ => false

/-- The sleep durations a worker requests, in order. -/
def wSleepDurations (tr : List WEv) : List Rat :=
  tr.filterMap (fun e => match e with | WEv.sleep d => some d | _ => none)

theorem work_loop_succ_true (name : Nat) (ω τ : Nat → Rat) (signal : Nat → Bool)
    (fuel k : Nat) (w : BackgroundWorker) (p c : Nat) (h : signal k = true) :
    work_loop name ω τ signal (fuel + 1) k w p c =
      ((work_loop name ω τ signal fuel (k + 1) (worker_step name ω τ w p c).1
          (worker_step name ω τ w p c).2.1 (worker_step name ω τ w p c).2.2).1,
       WEv.checkFlag true :: WEv.iter :: WEv.sleep (1/10) ::
         (work_loop name ω τ signal fuel (k + 1) (worker_step name ω τ w p c).1
           (worker_step name ω τ w p c).2.1 (worker_step name ω τ w p c).2.2).2) := by
  rw [work_loop, h]
  simp

theorem work_loop_succ_false (name : Nat) (ω τ : Nat → Rat) (signal : Nat → Bool)
    (fuel k : Nat) (w : BackgroundWorker) (p c : Nat) (h : signal k = false) :
    work_loop name ω τ signal (fuel + 1) k w p c = (w, [WEv.checkFlag false]) := by
  rw [work_loop, h]
  simp

theorem work_loop_counts (name : Nat) (ω τ : Nat → Rat) (signal : Nat → Bool) :
    ∀ (fuel k : Nat) (w : BackgroundWorker) (p c : Nat),
    (work_loop name ω τ signal fuel k w p c).2.countP isWIterEv ≤
      (work_loop name ω τ signal fuel k w p c).2.countP isWCheckEv ∧
    (work_loop name ω τ signal fuel k w p c).2.countP isWCheckEv ≤
      (work_loop name ω τ signal fuel k w p c).2.countP isWIterEv + 1 ∧
    (∀ d ∈ wSleepDurations (work_loop name ω τ signal fuel k w p c).2, d = 1/10) := by
  intro fuel
  induction fuel with
  | zero =>
      intro k w p c
      refine ⟨le_refl _, by simp [work_loop], ?_⟩
      intro d hd
      simp [work_loop, wSleepDurations] at hd
  | succ fuel ih =>
      intro k w p c
      cases h : signal k with
      | false =>
          rw [work_loop_succ_false _ _ _ _ _ _ _ _ _ h]
          refine ⟨by simp [isWIterEv, isWCheckEv], by simp [isWIterEv, isWCheckEv], ?_⟩
          intro d hd
          simp [wSleepDurations] at hd
      | true =>
          rw [work_loop_succ_true _ _ _ _ _ _ _ _ _ h]
          obtain ⟨ih1, ih2, ih3⟩ := ih (k + 1) (worker_step name ω τ w p c).1
            (worker_step name ω τ w p c).2.1 (worker_step name ω τ w p c).2.2
          refine ⟨?_, ?_, ?_⟩
          · simp [List.countP_cons, isWIterEv, isWCheckEv]
            omega
          · simp [List.countP_cons, isWIterEv, isWCheckEv]
            omega
          · intro d hd
            simp [wSleepDurations] at hd
            rcases hd with hd | hd
            · rw [hd]; norm_num
            · exact ih3 d (by simpa [wSleepDurations] using hd)

/- ### Small helpers for the claim theorems -/

theorem sim_state_after_succ (avail : Bool) (ω τ : Nat → Rat) (N : Nat) :
    sim_state_after avail ω τ (N + 1) =
      ((run_iteration avail ω τ (N + 1) (sim_state_after avail ω τ N).1
          (sim_state_after avail ω τ N).2.1 ((sim_state_after avail ω τ N).2.2 + 1)).1,
       (run_iteration avail ω τ (N + 1) (sim_state_after avail ω τ N).1
          (sim_state_after avail ω τ N).2.1 ((sim_state_after avail ω τ N).2.2 + 1)).2.1,
       (run_iteration avail ω τ (N + 1) (sim_state_after avail ω τ N).1
          (sim_state_after avail ω τ N).2.1 ((sim_state_after avail ω τ N).2.2 + 1)).2.2.1) :=
  rfl

theorem list_getD_le_map_add (xs : List Nat) (E : Nat) :
    ∀ i, xs.getD i 0 ≤ (xs.map (fun x => x + E)).getD i 0 := by
  induction xs with
  | nil => intro i; simp
  | cons x xs ih =>
      intro i
      cases i with
      | zero => simp
      | succ i => simpa using ih i

/-- Sizes of each listener's `data_buffer`, in listener order. -/
def listenerBufLens (st : SimState) : List Nat :=
  st.event_listeners.map (fun l => l.data_buffer.length)

/- ### Claim theorems -/

/-- C10: for every `connection_id` absent from `active_connections` and
every data value, `ConnectionManager.send_data` raises nothing and
returns the manager completely unchanged — active connections, history
and every data buffer included: sending on an unknown connection is a
silent no-op. -/
theorem C10_send_data_unknown_noop (mgr : ConnectionManager) (connection_id : ConnId)
    (data : Msg) (h : dictFind connection_id mgr.active_connections = none) :
    send_data mgr connection_id data = mgr := by
  simp [send_data, h]

/-- Witness for C10 at a concrete manager holding one other connection. -/
theorem C10_witness :
    dictFind ((0, 2) : ConnId)
      ({ active_connections :=
          [((1, 3), { id := (1, 3), created_at := 3, data_buffer := [], status := true })],
         connection_history := [(1, 3)] } : ConnectionManager).active_connections =
      none ∧
    send_data
      { active_connections :=
          [((1, 3), { id := (1, 3), created_at := 3, data_buffer := [], status := true })],
        connection_history := [(1, 3)] } (0, 2) { message_id := 0, payload := [] } =
      { active_connections :=
          [((1, 3), { id := (1, 3), created_at := 3, data_buffer := [], status := true })],
        connection_history := [(1, 3)] } :=
  ⟨by decide, C10_send_data_unknown_noop _ _ _ (by decide)⟩

/-- C9 counterexample: a complete run of `teste_vscode.py.main` prints
all 100 per-chunk lines, yet the module-level `leak_list` is empty at
the end: no processed chunk was ever inserted into it and its size
never grew. -/
theorem C9_counterexample :
    vsc_main.leak_list.length = 0 ∧ vsc_main.prints.length = 100 := by
  constructor
  · rw [show vsc_main.leak_list = vsc_initial.leak_list from
      vsc_foldl_leak_list vsc_data vsc_initial]
    rfl
  · rw [vsc_main, vsc_foldl_prints_length]
    simp [vsc_data, vsc_initial]

/-- C9 amended: the loops of `leak.py`, `teste.py` and `teste4.py` do
store references in ever-growing containers — but `teste_vscode.py`
does not: its `leak_list` is untouched by every chunk pass and ends
empty after the 100 chunks are processed, printed and deleted. -/
theorem C9_amended :
    (∀ (l : List (List Nat)) (st : VscState), (l.foldl vsc_step st).leak_list = st.leak_list) ∧
    vsc_main.leak_list = [] ∧
    vsc_main.prints.length = 100 ∧
    (∀ n : Nat, (memory_leak_run (n + 1)).length = (memory_leak_run n).length + 1) ∧
    (∀ n : Nat, (vazamento_run (n + 1)).vazamento.length =
      (vazamento_run n).vazamento.length + 1) ∧
    (∀ (avail : Bool) (ω τ : Nat → Rat) (N : Nat),
      (sim_state_after avail ω τ N).1.processor.memory_intensive_data.length <
        (sim_state_after avail ω τ (N + 1)).1.processor.memory_intensive_data.length) := by
  refine ⟨vsc_foldl_leak_list, ?_, ?_, ?_, ?_, ?_⟩
  · rw [show vsc_main.leak_list = vsc_initial.leak_list from
      vsc_foldl_leak_list vsc_data vsc_initial]
    rfl
  · rw [vsc_main, vsc_foldl_prints_length]
    simp [vsc_data, vsc_initial]
  · intro n
    rw [memory_leak_run_length, memory_leak_run_length]
  · intro n
    rw [vazamento_run_length, vazamento_run_length]
  · intro avail ω τ N
    obtain ⟨_, _, hmem, _⟩ :=
      run_iteration_spec avail ω τ (N + 1) (sim_state_after avail ω τ N).1
        (sim_state_after avail ω τ N).2.1 ((sim_state_after avail ω τ N).2.2 + 1)
        (sim_state_after_inv avail ω τ N)
    rw [sim_state_after_succ, hmem]
    have : 500 ≤ iterBatchSize ω (sim_state_after avail ω τ N).2.1 := by
      simp [iterBatchSize, randint]
    omega

/-- C8: stopping the harness only flips boolean flags and logs lines:
the final state of `main()` carries exactly the containers the
simulation built — global cache, processor stores, connections and
buffers, listeners, thread pool are all unchanged by the
`finally` cleanup; the closing log line is always printed and the
interruption message appears on the `KeyboardInterrupt` path; and
`teste4.py`'s `finally` merely unbinds the local name (`del vazamento`)
without removing a single element from the list it held. -/
theorem C8_cleanup_removes_nothing :
    (∀ (avail : Bool) (ω τ : Nat → Rat) (flag : Nat → Bool) (fuel : Nat)
       (interrupted : Bool),
      (main_leak avail ω τ flag fuel interrupted).1.global_cache =
        (run_simulation avail ω τ flag 5 fuel).1.global_cache ∧
      (main_leak avail ω τ flag fuel interrupted).1.processor =
        (run_simulation avail ω τ flag 5 fuel).1.processor ∧
      (main_leak avail ω τ flag fuel interrupted).1.connMgr =
        (run_simulation avail ω τ flag 5 fuel).1.connMgr ∧
      (main_leak avail ω τ flag fuel interrupted).1.event_listeners =
        (run_simulation avail ω τ flag 5 fuel).1.event_listeners ∧
      (main_leak avail ω τ flag fuel interrupted).1.thread_pool =
        (run_simulation avail ω τ flag 5 fuel).1.thread_pool ∧
      (main_leak avail ω τ flag fuel interrupted).2.getLast? =
        some (Ev.log LogLine.cleanupLine)) ∧
    (∀ (avail : Bool) (ω τ : Nat → Rat) (flag : Nat → Bool) (fuel : Nat),
      Ev.log LogLine.interruptedLine ∈ (main_leak avail ω τ flag fuel true).2) ∧
    (∀ st : Teste4State,
      (vazamento_finally st).vazamento = st.vazamento ∧
      (vazamento_finally st).bound = false ∧
      (vazamento_finally st).prints = st.prints) := by
  refine ⟨?_, ?_, ?_⟩
  · intro avail ω τ flag fuel interrupted
    refine ⟨rfl, rfl, rfl, rfl, rfl, ?_⟩
    show ((if interrupted then _ else _ : List Ev) ++ [Ev.log LogLine.cleanupLine]).getLast? =
      some (Ev.log LogLine.cleanupLine)
    cases interrupted <;> simp
  · intro avail ω τ flag fuel
    show Ev.log LogLine.interruptedLine ∈
      ((if true then (run_simulation avail ω τ flag 5 fuel).2.2.2 ++
          [Ev.log LogLine.interruptedLine]
        else (run_simulation avail ω τ flag 5 fuel).2.2.2) ++
        [Ev.log LogLine.cleanupLine])
    simp
  · intro st
    exact ⟨rfl, rfl, rfl⟩

/-- C6: workers stop only cooperatively.  In every worker trace the
stop flag is checked exactly once per pass of the work loop (the number
of flag checks is the number of completed passes, plus one for the
failing check when the flag stops the loop), and no execution path of
the harness ever joins a worker thread: after a full `main()` run —
`stop` included — every handle in `THREAD_POOL` still has
`joined = false`. -/
theorem C6_cooperative_stop_never_joined :
    (∀ (name : Nat) (ω τ : Nat → Rat) (signal : Nat → Bool) (fuel k : Nat)
       (w : BackgroundWorker) (p c : Nat),
      (work_loop name ω τ signal fuel k w p c).2.countP isWIterEv ≤
        (work_loop name ω τ signal fuel k w p c).2.countP isWCheckEv ∧
      (work_loop name ω τ signal fuel k w p c).2.countP isWCheckEv ≤
        (work_loop name ω τ signal fuel k w p c).2.countP isWIterEv + 1) ∧
    (∀ (avail : Bool) (ω τ : Nat → Rat) (flag : Nat → Bool) (fuel : Nat)
       (interrupted : Bool),
      ∀ h ∈ (main_leak avail ω τ flag fuel interrupted).1.thread_pool,
        h.joined = false) := by
  constructor
  · intro name ω τ signal fuel k w p c
    obtain ⟨h1, h2, _⟩ := work_loop_counts name ω τ signal fuel k w p c
    exact ⟨h1, h2⟩
  · intro avail ω τ flag fuel interrupted h hmem
    have hpool : (main_leak avail ω τ flag fuel interrupted).1.thread_pool =
        sim_start.thread_pool := by
      show (stop (run_simulation avail ω τ flag 5 fuel).1).thread_pool =
        sim_start.thread_pool
      rw [show (stop (run_simulation avail ω τ flag 5 fuel).1).thread_pool =
        (run_simulation avail ω τ flag 5 fuel).1.thread_pool from rfl]
      exact (run_loop_preserves avail ω τ flag _ fuel 0 sim_start 0 1).1
    rw [hpool] at hmem
    have : sim_start.thread_pool =
        [{ worker_name := 0, joined := false }, { worker_name := 1, joined := false },
         { worker_name := 2, joined := false }] := rfl
    rw [this] at hmem
    simp at hmem
    rcases hmem with h1 | h1 | h1
    · rw [h1]
    · rw [h1]
    · rw [h1]

/-- C5: the main loop terminates within one sleep interval of the stop
condition becoming true.  Nothing — in particular no further sleep —
follows the first failed head check in the loop's trace; every executed
iteration performs exactly one trailing sleep (sleep count = successful
check count); and if `self.running` reads false at check index `j`,
at most `j` iterations, hence at most `j` sleeps, ever run. -/
theorem C5_stop_within_one_sleep (avail : Bool) (ω τ : Nat → Rat) (flag : Nat → Bool)
    (end_time : Rat) (fuel k : Nat) (st : SimState) (p c : Nat) (j : Nat)
    (hj : flag j = false) :
    afterFirstFalseCheck (run_loop avail ω τ flag end_time fuel k st p c).2.2.2 = [] ∧
    (run_loop avail ω τ flag end_time fuel k st p c).2.2.2.countP isSleepEv =
      (run_loop avail ω τ flag end_time fuel k st p c).2.2.2.countP isCheckTrueEv ∧
    (run_loop avail ω τ flag end_time fuel 0 st p c).2.2.2.countP isCheckTrueEv ≤ j := by
  refine ⟨run_loop_after_empty avail ω τ flag end_time fuel k st p c,
    (run_loop_counts avail ω τ flag end_time fuel k st p c).1, ?_⟩
  have h := run_loop_flag_bound avail ω τ flag end_time fuel 0 st p c j hj (Nat.zero_le j)
  simpa using h

/-- Witness for C5: a run whose `running` flag is observed false from
check 1 on executes at most one iteration and sleeps at most once. -/
theorem C5_witness :
    (fun i => decide (i < 1)) 1 = false ∧
    (afterFirstFalseCheck (run_loop true (fun _ => 0) (fun _ => 0)
        (fun i => decide (i < 1)) 0 3 0 sim_start 0 1).2.2.2 = [] ∧
     (run_loop true (fun _ => 0) (fun _ => 0) (fun i => decide (i < 1)) 0 3 0
         sim_start 0 1).2.2.2.countP isSleepEv =
       (run_loop true (fun _ => 0) (fun _ => 0) (fun i => decide (i < 1)) 0 3 0
         sim_start 0 1).2.2.2.countP isCheckTrueEv ∧
     (run_loop true (fun _ => 0) (fun _ => 0) (fun i => decide (i < 1)) 0 3 0
         sim_start 0 1).2.2.2.countP isCheckTrueEv ≤ 1) :=
  ⟨by decide, C5_stop_within_one_sleep true (fun _ => 0) (fun _ => 0)
    (fun i => decide (i < 1)) 0 3 0 sim_start 0 1 1 (by decide)⟩

/-- C1: every Growth Container's size is monotone across iterations:
after iteration `N + 1` each container is at least as large as after
iteration `N` — the global cache, the processed-records map, the
memory-intensive list, the temp files, the connection history, the
active-connection map, every individual connection's data buffer,
every listener's buffer, and the thread pool; likewise each background
worker's queue and results map across the worker's own iterations, and
the lists of the standalone leak scripts (`teste_vscode.py`'s
`leak_list` is constant).  No modelled operation removes an entry from
any of these containers before process exit. -/
theorem C1_growth_monotone :
    (∀ (avail : Bool) (ω τ : Nat → Rat) (N : Nat),
      (sim_state_after avail ω τ N).1.global_cache.length ≤
        (sim_state_after avail ω τ (N + 1)).1.global_cache.length ∧
      (sim_state_after avail ω τ N).1.processor.processed_records.length ≤
        (sim_state_after avail ω τ (N + 1)).1.processor.processed_records.length ∧
      (sim_state_after avail ω τ N).1.processor.memory_intensive_data.length ≤
        (sim_state_after avail ω τ (N + 1)).1.processor.memory_intensive_data.length ∧
      (sim_state_after avail ω τ N).1.processor.temp_files.length ≤
        (sim_state_after avail ω τ (N + 1)).1.processor.temp_files.length ∧
      (sim_state_after avail ω τ N).1.connMgr.connection_history.length ≤
        (sim_state_after avail ω τ (N + 1)).1.connMgr.connection_history.length ∧
      (sim_state_after avail ω τ N).1.connMgr.active_connections.length ≤
        (sim_state_after avail ω τ (N + 1)).1.connMgr.active_connections.length ∧
      (∀ q : ConnId, bufLenAt (sim_state_after avail ω τ N).1.connMgr q ≤
        bufLenAt (sim_state_after avail ω τ (N + 1)).1.connMgr q) ∧
      (∀ i : Nat, (listenerBufLens (sim_state_after avail ω τ N).1).getD i 0 ≤
        (listenerBufLens (sim_state_after avail ω τ (N + 1)).1).getD i 0) ∧
      (sim_state_after avail ω τ N).1.thread_pool.length ≤
        (sim_state_after avail ω τ (N + 1)).1.thread_pool.length) ∧
    (∀ (name : Nat) (ω τ : Nat → Rat) (M : Nat),
      (worker_state_after name ω τ M).1.work_queue.length ≤
        (worker_state_after name ω τ (M + 1)).1.work_queue.length ∧
      (worker_state_after name ω τ M).1.results.length ≤
        (worker_state_after name ω τ (M + 1)).1.results.length) ∧
    (∀ n : Nat, (memory_leak_run n).length ≤ (memory_leak_run (n + 1)).length) ∧
    (∀ n : Nat, (vazamento_run n).vazamento.length ≤
      (vazamento_run (n + 1)).vazamento.length) ∧
    (∀ (l : List (List Nat)) (st : VscState),
      (l.foldl vsc_step st).leak_list.length = st.leak_list.length) := by
  refine ⟨?_, ?_, ?_, ?_, ?_⟩
  · intro avail ω τ N
    obtain ⟨_, _, hmem, htemp, hhist, hactge, _, hbuf, hls, hpool, _, _, hcg, _,
      hrg, _, _, _⟩ :=
      run_iteration_spec avail ω τ (N + 1) (sim_state_after avail ω τ N).1
        (sim_state_after avail ω τ N).2.1 ((sim_state_after avail ω τ N).2.2 + 1)
        (sim_state_after_inv avail ω τ N)
    rw [sim_state_after_succ]
    refine ⟨hcg, hrg, by rw [hmem]; omega, by rw [htemp]; omega,
      by rw [hhist]; omega, hactge, hbuf, ?_, by rw [hpool]⟩
    intro i
    show (listenerBufLens (sim_state_after avail ω τ N).1).getD i 0 ≤
      ((run_iteration avail ω τ (N + 1) (sim_state_after avail ω τ N).1
        (sim_state_after avail ω τ N).2.1
        ((sim_state_after avail ω τ N).2.2 + 1)).1.event_listeners.map
          (fun l => l.data_buffer.length)).getD i 0
    rw [hls]
    have hcomp : (sim_state_after avail ω τ N).1.event_listeners.map
        (fun l => l.data_buffer.length +
          iterEventCount ω (sim_state_after avail ω τ N).2.1) =
        (listenerBufLens (sim_state_after avail ω τ N).1).map
          (fun x => x + iterEventCount ω (sim_state_after avail ω τ N).2.1) := by
      rw [listenerBufLens, List.map_map]
      rfl
    rw [hcomp]
    exact list_getD_le_map_add _ _ i
  · intro name ω τ M
    obtain ⟨hq, hr, _, _⟩ :=
      worker_step_spec name ω τ (worker_state_after name ω τ M).1
        (worker_state_after name ω τ M).2.1 (worker_state_after name ω τ M).2.2
    constructor
    · rw [show worker_state_after name ω τ (M + 1) =
        worker_step name ω τ (worker_state_after name ω τ M).1
          (worker_state_after name ω τ M).2.1 (worker_state_after name ω τ M).2.2
        from rfl, hq]
      omega
    · rw [show worker_state_after name ω τ (M + 1) =
        worker_step name ω τ (worker_state_after name ω τ M).1
          (worker_state_after name ω τ M).2.1 (worker_state_after name ω τ M).2.2
        from rfl]
      exact hr
  · intro n
    rw [memory_leak_run_length, memory_leak_run_length]
    omega
  · intro n
    rw [vazamento_run_length, vazamento_run_length]
    omega
  · intro l st
    rw [vsc_foldl_leak_list]

theorem run_simulation_trace (avail : Bool) (ω τ : Nat → Rat) (flag : Nat → Bool)
    (d fuel : Nat) :
    (run_simulation avail ω τ flag d fuel).2.2.2 =
      Ev.log LogLine.startLine ::
        ((run_loop avail ω τ flag (τ 0 + (d : Rat) * 60) fuel 0 sim_start 0 1).2.2.2 ++
          [Ev.log LogLine.endLine]) := rfl

theorem run_simulation_state (avail : Bool) (ω τ : Nat → Rat) (flag : Nat → Bool)
    (d fuel : Nat) :
    (run_simulation avail ω τ flag d fuel).1 =
      (run_loop avail ω τ flag (τ 0 + (d : Rat) * 60) fuel 0 sim_start 0 1).1 := rfl

/-- C2 amended: when the memory-inspection facility is unavailable,
every iteration still completes without an unhandled failure — the
loop's control flow, iteration count and final state are exactly those
of an available-psutil run — but the whole memory report is skipped,
container-size lines included: the unavailable-psutil trace contains
no resident-memory line and no size line at all, only one warning line
per iteration. -/
theorem C2_psutil_missing_skips_whole_report (ω τ : Nat → Rat) (flag : Nat → Bool)
    (d fuel : Nat) :
    (run_simulation false ω τ flag d fuel).1 = (run_simulation true ω τ flag d fuel).1 ∧
    (run_simulation false ω τ flag d fuel).2.2.2.countP isCheckTrueEv =
      (run_simulation true ω τ flag d fuel).2.2.2.countP isCheckTrueEv ∧
    (run_simulation false ω τ flag d fuel).2.2.2.countP isSizeReport = 0 ∧
    (run_simulation false ω τ flag d fuel).2.2.2.countP isWarnEv =
      (run_simulation false ω τ flag d fuel).2.2.2.countP isCheckTrueEv := by
  obtain ⟨a1, _, _, a4⟩ :=
    run_loop_avail_eq ω τ flag (τ 0 + (d : Rat) * 60) fuel 0 sim_start 0 1
  obtain ⟨s1, s2⟩ := run_loop_size_lines ω τ flag (τ 0 + (d : Rat) * 60) fuel 0 sim_start 0 1
  refine ⟨?_, ?_, ?_, ?_⟩
  · rw [run_simulation_state, run_simulation_state, a1]
  · rw [run_simulation_trace, run_simulation_trace]
    simp [List.countP_cons, List.countP_append, isCheckTrueEv, a4]
  · rw [run_simulation_trace]
    simp [List.countP_cons, List.countP_append, isSizeReport, s1]
  · rw [run_simulation_trace]
    simp [List.countP_cons, List.countP_append, isSizeReport, isWarnEv, isCheckTrueEv,
      s1, s2]

/-- C2 counterexample: with psutil unavailable, a run that completes
one full iteration emits no container-size line at all (the claim
asserts the four size lines are still emitted): the trace holds one
successful check, zero memory-report lines, one warning. -/
theorem C2_counterexample :
    (run_simulation false (fun _ => 0) (fun _ => 0) (fun _ => true) 5 1).2.2.2.countP
      isCheckTrueEv = 1 ∧
    (run_simulation false (fun _ => 0) (fun _ => 0) (fun _ => true) 5 1).2.2.2.countP
      isSizeReport = 0 ∧
    (run_simulation false (fun _ => 0) (fun _ => 0) (fun _ => true) 5 1).2.2.2.countP
      isWarnEv = 1 := by
  rw [run_simulation_trace]
  have hcond : (decide ((fun _ => (0 : Rat)) 1 < (fun _ => (0 : Rat)) 0 +
      ((5 : Nat) : Rat) * 60) && (fun _ => true) 0) = true := by norm_num
  rw [run_loop_succ_true false (fun _ => 0) (fun _ => 0) (fun _ => true)
    ((fun _ => (0 : Rat)) 0 + ((5 : Nat) : Rat) * 60) 0 0 sim_start 0 1 hcond]
  obtain ⟨c1, _, _, _⟩ :=
    run_iteration_trace_counts false (fun _ => 0) (fun _ => 0) 1 sim_start 0 2
  obtain ⟨l1, l2⟩ :=
    run_iteration_trace_lines_noavail (fun _ => 0) (fun _ => 0) 1 sim_start 0 2
  refine ⟨?_, ?_, ?_⟩
  · simp [run_loop, List.countP_cons, List.countP_append, isCheckTrueEv, c1]
  · simp [run_loop, List.countP_cons, List.countP_append, isSizeReport, l1]
  · simp [run_loop, List.countP_cons, List.countP_append, isWarnEv, l2]

theorem duration_zero_spec (avail : Bool) (ω τ : Nat → Rat)
    (flag : Nat → Bool) (fuel : Nat) (hτ : Monotone τ) :
    (run_simulation avail ω τ flag 0 fuel).2.2.2.countP isCheckTrueEv = 0 ∧
    (run_simulation avail ω τ flag 0 fuel).2.2.2.countP isBatchLineEv = 0 ∧
    (run_simulation avail ω τ flag 0 fuel).2.2.2.countP isSizeReport = 0 ∧
    (run_simulation avail ω τ flag 0 fuel).2.2.2.countP isWarnEv = 0 ∧
    (run_simulation avail ω τ flag 0 fuel).1 = sim_start := by
  have hend : τ 0 + ((0 : Nat) : Rat) * 60 = τ 0 := by norm_num
  have hcond : (decide (τ 1 < τ 0 + ((0 : Nat) : Rat) * 60) && flag 0) = false := by
    have h1 : ¬ (τ 1 < τ 0) := not_lt.mpr (hτ (by omega))
    simp [h1]
  cases fuel with
  | zero =>
      rw [run_simulation_trace]
      refine ⟨?_, ?_, ?_, ?_, rfl⟩ <;>
        simp [run_loop, List.countP_cons, List.countP_append, isCheckTrueEv,
          isBatchLineEv, isSizeReport, isWarnEv]
  | succ fuel =>
      constructor
      · rw [run_simulation_trace, run_loop_succ_false _ _ _ _ _ _ _ _ _ _ hcond]
        simp [List.countP_cons, List.countP_append, isCheckTrueEv]
      constructor
      · rw [run_simulation_trace, run_loop_succ_false _ _ _ _ _ _ _ _ _ _ hcond]
        simp [List.countP_cons, List.countP_append, isBatchLineEv]
      constructor
      · rw [run_simulation_trace, run_loop_succ_false _ _ _ _ _ _ _ _ _ _ hcond]
        simp [List.countP_cons, List.countP_append, isSizeReport]
      constructor
      · rw [run_simulation_trace, run_loop_succ_false _ _ _ _ _ _ _ _ _ _ hcond]
        simp [List.countP_cons, List.countP_append, isWarnEv]
      · rw [run_simulation_state, run_loop_succ_false _ _ _ _ _ _ _ _ _ _ hcond]

/-- C3 amended: configured with a duration of 0 minutes, the harness
performs zero generate-and-store cycles and logs zero memory reports:
`end_time` equals `start_time`, so (with a monotone clock) the very
first head check fails and the loop body never runs.  There is no
loop-bound configuration in the program. -/
theorem C3_duration_zero_runs_nothing (avail : Bool) (ω τ : Nat → Rat)
    (flag : Nat → Bool) (fuel : Nat) (hτ : Monotone τ) :
    (run_simulation avail ω τ flag 0 fuel).2.2.2.countP isCheckTrueEv = 0 ∧
    (run_simulation avail ω τ flag 0 fuel).2.2.2.countP isBatchLineEv = 0 ∧
    (run_simulation avail ω τ flag 0 fuel).2.2.2.countP isSizeReport = 0 ∧
    (run_simulation avail ω τ flag 0 fuel).2.2.2.countP isWarnEv = 0 ∧
    (run_simulation avail ω τ flag 0 fuel).1 = sim_start :=
  duration_zero_spec avail ω τ flag fuel hτ

/-- Witness for C3's amended theorem at the identity-cast clock. -/
theorem C3_witness :
    Monotone (fun n : Nat => (n : Rat)) ∧
    ((run_simulation true (fun _ => 0) (fun n : Nat => (n : Rat)) (fun _ => true)
        0 4).2.2.2.countP isCheckTrueEv = 0 ∧
     (run_simulation true (fun _ => 0) (fun n : Nat => (n : Rat)) (fun _ => true)
        0 4).2.2.2.countP isBatchLineEv = 0 ∧
     (run_simulation true (fun _ => 0) (fun n : Nat => (n : Rat)) (fun _ => true)
        0 4).2.2.2.countP isSizeReport = 0 ∧
     (run_simulation true (fun _ => 0) (fun n : Nat => (n : Rat)) (fun _ => true)
        0 4).2.2.2.countP isWarnEv = 0 ∧
     (run_simulation true (fun _ => 0) (fun n : Nat => (n : Rat)) (fun _ => true)
        0 4).1 = sim_start) :=
  ⟨fun a b h => by show ((a : Rat) ≤ (b : Rat)); exact_mod_cast h,
   C3_duration_zero_runs_nothing true (fun _ => 0) (fun n : Nat => (n : Rat))
     (fun _ => true) 4 (fun a b h => by show ((a : Rat) ≤ (b : Rat)); exact_mod_cast h)⟩

/-- C3 counterexample: with duration 0 (and a clock that advances), the
run performs zero generate-and-store cycles — not the one cycle and one
size report the claim asserts. -/
theorem C3_counterexample :
    (run_simulation true (fun _ => 0) (fun n : Nat => (n : Rat)) (fun _ => true)
       0 4).2.2.2.countP isBatchLineEv ≠ 1 ∧
    (run_simulation true (fun _ => 0) (fun n : Nat => (n : Rat)) (fun _ => true)
       0 4).2.2.2.countP isCheckTrueEv = 0 := by
  obtain ⟨h1, h2, _, _, _⟩ :=
    duration_zero_spec true (fun _ => 0) (fun n : Nat => (n : Rat))
      (fun _ => true) 4 (fun a b h => by show ((a : Rat) ≤ (b : Rat)); exact_mod_cast h)
  exact ⟨by rw [h2]; omega, h1⟩

/-- The sleep durations of a two-iteration run of the main loop, in
terms of the iteration sleep-draw positions. -/
theorem run_loop_two_sleeps (avail : Bool) (ω τ : Nat → Rat) (flag : Nat → Bool)
    (end_time : Rat) (st : SimState) (p c : Nat) (hInv : SimInv st)
    (h1 : (decide (τ c < end_time) && flag 0) = true)
    (h2 : (decide (τ ((run_iteration avail ω τ (0 + 1) st p (c + 1)).2.2.1) < end_time) &&
      flag (0 + 1)) = true) :
    sleepDurations (run_loop avail ω τ flag end_time 2 0 st p c).2.2.2 =
      [uniform 1 3 ω (iterSleepPos ω p),
       uniform 1 3 ω (iterSleepPos ω (iterSleepPos ω p + 1))] := by
  rw [show (2 : Nat) = 1 + 1 from rfl]
  rw [run_loop_succ_true avail ω τ flag end_time 1 0 st p c h1]
  rw [run_loop_succ_true avail ω τ flag end_time 0 (0 + 1)
    (run_iteration avail ω τ (0 + 1) st p (c + 1)).1
    (run_iteration avail ω τ (0 + 1) st p (c + 1)).2.1
    (run_iteration avail ω τ (0 + 1) st p (c + 1)).2.2.1 h2]
  obtain ⟨sp1, _, _, _, _, _, _, _, _, _, _, _, _, _, _, _, hInv1, _⟩ :=
    run_iteration_spec avail ω τ (0 + 1) st p (c + 1) hInv
  obtain ⟨_, _, _, d1⟩ := run_iteration_trace_counts avail ω τ (0 + 1) st p (c + 1)
  obtain ⟨_, _, _, d2⟩ := run_iteration_trace_counts avail ω τ (0 + 1 + 1)
    (run_iteration avail ω τ (0 + 1) st p (c + 1)).1
    (run_iteration avail ω τ (0 + 1) st p (c + 1)).2.1
    ((run_iteration avail ω τ (0 + 1) st p (c + 1)).2.2.1 + 1)
  obtain ⟨e1, _⟩ := iterStage3_spec ω τ st p (c + 1) hInv
  obtain ⟨e2, _⟩ := iterStage3_spec ω τ
    (run_iteration avail ω τ (0 + 1) st p (c + 1)).1
    (run_iteration avail ω τ (0 + 1) st p (c + 1)).2.1
    ((run_iteration avail ω τ (0 + 1) st p (c + 1)).2.2.1 + 1) hInv1
  have hsd : sleepDurations (run_loop avail ω τ flag end_time 0 (0 + 1 + 1)
      (run_iteration avail ω τ (0 + 1 + 1)
        (run_iteration avail ω τ (0 + 1) st p (c + 1)).1
        (run_iteration avail ω τ (0 + 1) st p (c + 1)).2.1
        ((run_iteration avail ω τ (0 + 1) st p (c + 1)).2.2.1 + 1)).1
      (run_iteration avail ω τ (0 + 1 + 1)
        (run_iteration avail ω τ (0 + 1) st p (c + 1)).1
        (run_iteration avail ω τ (0 + 1) st p (c + 1)).2.1
        ((run_iteration avail ω τ (0 + 1) st p (c + 1)).2.2.1 + 1)).2.1
      (run_iteration avail ω τ (0 + 1 + 1)
        (run_iteration avail ω τ (0 + 1) st p (c + 1)).1
        (run_iteration avail ω τ (0 + 1) st p (c + 1)).2.1
        ((run_iteration avail ω τ (0 + 1) st p (c + 1)).2.2.1 + 1)).2.2.1).2.2.2 = [] :=
    rfl
  simp only [sleepDurations, List.filterMap_cons, List.filterMap_append] at d1 d2 hsd ⊢
  rw [d1, d2, hsd, e1, e2, sp1]
  simp

theorem floorDraw_zero (n : Nat) : floorDraw 0 n = 0 := by
  unfold floorDraw
  rw [show (0 : Rat) * n = 0 from by norm_num]
  rfl

theorem floorDraw_inv1001 : floorDraw (1 / 1001) 1001 = 1 := by
  unfold floorDraw
  rw [show (1 / 1001 : Rat) * (((1001 : Nat) : Rat)) = 1 from by norm_num]
  rfl

/-- The rng oracle of the C7 counterexample: every draw is 0 except the
first iteration's sleep draw (position 23028003), which is 1/2. -/
def c7ω : Nat → Rat := fun q => if q = 23028003 then 1/2 else 0

theorem c7_batch1 : iterBatchSize c7ω 0 = 500 := by
  show 500 + floorDraw (c7ω 0) 1001 = 500
  rw [show c7ω 0 = 0 from by norm_num [c7ω], floorDraw_zero]

theorem c7_conn1 : iterConnCount c7ω 0 = 5 := by
  show 5 + floorDraw (c7ω (0 + 1 + generateCost * iterBatchSize c7ω 0)) 11 = 5
  rw [c7_batch1, show c7ω (0 + 1 + generateCost * 500) = 0 from by
    norm_num [c7ω, generateCost], floorDraw_zero]

theorem c7_event1 : iterEventCount c7ω 0 = 10 := by
  show 10 + floorDraw
    (c7ω (0 + 2 + generateCost * iterBatchSize c7ω 0 + 100000 * iterConnCount c7ω 0)) 41 = 10
  rw [c7_batch1, c7_conn1, show c7ω (0 + 2 + generateCost * 500 + 100000 * 5) = 0 from by
    norm_num [c7ω, generateCost], floorDraw_zero]

theorem c7_sleep1 : iterSleepPos c7ω 0 = 23028003 := by
  rw [iterSleepPos, c7_batch1, c7_conn1, c7_event1]
  norm_num [generateCost]

theorem c7_batch2 : iterBatchSize c7ω (23028003 + 1) = 500 := by
  show 500 + floorDraw (c7ω (23028003 + 1)) 1001 = 500
  rw [show c7ω (23028003 + 1) = 0 from by norm_num [c7ω], floorDraw_zero]

theorem c7_conn2 : iterConnCount c7ω (23028003 + 1) = 5 := by
  show 5 + floorDraw
    (c7ω (23028003 + 1 + 1 + generateCost * iterBatchSize c7ω (23028003 + 1))) 11 = 5
  rw [c7_batch2, show c7ω (23028003 + 1 + 1 + generateCost * 500) = 0 from by
    norm_num [c7ω, generateCost], floorDraw_zero]

theorem c7_event2 : iterEventCount c7ω (23028003 + 1) = 10 := by
  show 10 + floorDraw (c7ω (23028003 + 1 + 2 + generateCost * iterBatchSize c7ω (23028003 + 1) +
    100000 * iterConnCount c7ω (23028003 + 1))) 41 = 10
  rw [c7_batch2, c7_conn2, show c7ω (23028003 + 1 + 2 + generateCost * 500 + 100000 * 5) = 0
    from by norm_num [c7ω, generateCost], floorDraw_zero]

theorem c7_sleep2 : iterSleepPos c7ω (23028003 + 1) = 46056007 := by
  rw [iterSleepPos, c7_batch2, c7_conn2, c7_event2]
  norm_num [generateCost]

/-- C7 counterexample: the main loop's inter-iteration sleeps are not
of fixed duration.  Under a concrete seed, a two-iteration run of the
loop requests a 2-second sleep after iteration 1 and a 1-second sleep
after iteration 2 (`time.sleep(random.uniform(1, 3))` draws a fresh
duration each iteration). -/
theorem C7_counterexample :
    sleepDurations (run_loop false c7ω (fun _ => 0) (fun _ => true) 300 2 0
      sim_start 0 1).2.2.2 = [2, 1] ∧ (2 : Rat) ≠ 1 := by
  constructor
  · rw [run_loop_two_sleeps false c7ω (fun _ => 0) (fun _ => true) 300 sim_start 0 1
      sim_start_inv (by norm_num) (by norm_num)]
    rw [c7_sleep1, c7_sleep2]
    have hu1 : uniform 1 3 c7ω 23028003 = 2 := by
      show (1 : Rat) + (3 - 1) * c7ω 23028003 = 2
      norm_num [c7ω]
    have hu2 : uniform 1 3 c7ω 46056007 = 1 := by
      show (1 : Rat) + (3 - 1) * c7ω 46056007 = 1
      norm_num [c7ω]
    rw [hu1, hu2]
  · norm_num

/-- C7 amended: all sleeps are the deliberate inter-iteration ones, but
only the worker loops and the standalone scripts sleep for a constant
duration (0.1 s, 0.1 s and 0.5 s respectively); the main loop's sleep is
drawn per iteration by `random.uniform(1, 3)` and is only guaranteed to
lie in the interval [1, 3] (for draws in [0, 1]), not to be constant. -/
theorem C7_amended (avail : Bool) (ω τ : Nat → Rat) (flag : Nat → Bool)
    (end_time : Rat) (fuel k : Nat) (st : SimState) (p c : Nat)
    (hω : ∀ q : Nat, 0 ≤ ω q ∧ ω q ≤ 1) :
    (∀ d ∈ sleepDurations (run_loop avail ω τ flag end_time fuel k st p c).2.2.2,
      1 ≤ d ∧ d ≤ 3) ∧
    (∀ (name : Nat) (ωw τw : Nat → Rat) (signal : Nat → Bool) (fw kw : Nat)
       (w : BackgroundWorker) (pw cw : Nat),
      ∀ d ∈ wSleepDurations (work_loop name ωw τw signal fw kw w pw cw).2, d = 1 / 10) ∧
    (∀ l : List (List Char), (memory_leak_iter l).2 = 1 / 10) ∧
    (∀ st4 : Teste4State, (vazamento_iter st4).2 = 1 / 2) := by
  refine ⟨?_, ?_, fun l => rfl, fun st4 => rfl⟩
  · intro d hd
    obtain ⟨q, hq⟩ := run_loop_sleep_uniform avail ω τ flag end_time fuel k st p c d hd
    obtain ⟨h0, h1⟩ := hω q
    constructor
    · rw [hq]
      show (1 : Rat) ≤ 1 + (3 - 1) * ω q
      nlinarith [h0]
    · rw [hq]
      show (1 : Rat) + (3 - 1) * ω q ≤ 3
      nlinarith [h1]
  · intro name ωw τw signal fw kw w pw cw d hd
    exact (work_loop_counts name ωw τw signal fw kw w pw cw).2.2 d hd

/-- Witness for C7's amended theorem at the all-zero draw oracle. -/
theorem C7_witness :
    (∀ q : Nat, 0 ≤ (fun _ => (0 : Rat)) q ∧ (fun _ => (0 : Rat)) q ≤ 1) ∧
    ((∀ d ∈ sleepDurations (run_loop true (fun _ => (0 : Rat)) (fun _ => 0)
        (fun _ => true) 0 0 0 sim_start 0 0).2.2.2, 1 ≤ d ∧ d ≤ 3) ∧
     (∀ (name : Nat) (ωw τw : Nat → Rat) (signal : Nat → Bool) (fw kw : Nat)
        (w : BackgroundWorker) (pw cw : Nat),
       ∀ d ∈ wSleepDurations (work_loop name ωw τw signal fw kw w pw cw).2, d = 1 / 10) ∧
     (∀ l : List (List Char), (memory_leak_iter l).2 = 1 / 10) ∧
     (∀ st4 : Teste4State, (vazamento_iter st4).2 = 1 / 2)) :=
  ⟨fun q => ⟨le_refl 0, by norm_num⟩,
   C7_amended true (fun _ => (0 : Rat)) (fun _ => 0) (fun _ => true) 0 0 0 sim_start 0 0
     (fun q => ⟨le_refl 0, by norm_num⟩)⟩

/- ### Per-step container growth on the canonical trajectory -/

theorem sim_step_sizes (avail : Bool) (ω τ : Nat → Rat) (hτ : StrictMono τ) (N : Nat) :
    (sim_state_after avail ω τ (N + 1)).1.global_cache.length =
      (sim_state_after avail ω τ N).1.global_cache.length +
        iterBatchSize ω (sim_state_after avail ω τ N).2.1 ∧
    (sim_state_after avail ω τ (N + 1)).1.processor.processed_records.length =
      (sim_state_after avail ω τ N).1.processor.processed_records.length +
        iterBatchSize ω (sim_state_after avail ω τ N).2.1 ∧
    (sim_state_after avail ω τ (N + 1)).1.processor.memory_intensive_data.length =
      (sim_state_after avail ω τ N).1.processor.memory_intensive_data.length +
        iterBatchSize ω (sim_state_after avail ω τ N).2.1 ∧
    (sim_state_after avail ω τ (N + 1)).1.processor.temp_files.length =
      (sim_state_after avail ω τ N).1.processor.temp_files.length +
        100 * iterBatchSize ω (sim_state_after avail ω τ N).2.1 ∧
    (sim_state_after avail ω τ (N + 1)).1.connMgr.active_connections.length =
      (sim_state_after avail ω τ N).1.connMgr.active_connections.length +
        iterConnCount ω (sim_state_after avail ω τ N).2.1 ∧
    (sim_state_after avail ω τ (N + 1)).1.connMgr.connection_history.length =
      (sim_state_after avail ω τ N).1.connMgr.connection_history.length +
        iterConnCount ω (sim_state_after avail ω τ N).2.1 ∧
    listenerBufLens (sim_state_after avail ω τ (N + 1)).1 =
      (listenerBufLens (sim_state_after avail ω τ N).1).map
        (fun x => x + iterEventCount ω (sim_state_after avail ω τ N).2.1) ∧
    (sim_state_after avail ω τ (N + 1)).2.1 =
      iterSleepPos ω (sim_state_after avail ω τ N).2.1 + 1 := by
  obtain ⟨sp, _, hmem, htemp, hhist, _, _, _, hls, _⟩ :=
    run_iteration_spec avail ω τ (N + 1) (sim_state_after avail ω τ N).1
      (sim_state_after avail ω τ N).2.1 ((sim_state_after avail ω τ N).2.2 + 1)
      (sim_state_after_inv avail ω τ N)
  obtain ⟨hfc, hfr, hfa, _⟩ :=
    run_iteration_fresh avail ω τ hτ (N + 1) (sim_state_after avail ω τ N).1
      (sim_state_after avail ω τ N).2.1 ((sim_state_after avail ω τ N).2.2 + 1)
      (sim_state_after_inv avail ω τ N)
      (freshInv_mono τ hτ (Nat.le_succ _) _ (sim_state_after_fresh avail ω τ hτ N))
  rw [sim_state_after_succ]
  refine ⟨hfc, hfr, hmem, htemp, hfa, hhist, ?_, sp⟩
  show (run_iteration avail ω τ (N + 1) (sim_state_after avail ω τ N).1
      (sim_state_after avail ω τ N).2.1
      ((sim_state_after avail ω τ N).2.2 + 1)).1.event_listeners.map
        (fun l => l.data_buffer.length) = _
  rw [hls, listenerBufLens, List.map_map]
  rfl

/- ### C4: oracle with a spike at the second batch-size draw -/

/-- The rng oracle of the C4 counterexample: every draw is 0 except the
second iteration's batch-size draw (position 23028004), which is
1/1001 and so yields `randint(500, 1500) = 501` there. -/
def c4ω : Nat → Rat := fun q => if q = 23028004 then 1/1001 else 0

theorem c4_batch1 : iterBatchSize c4ω 0 = 500 := by
  show 500 + floorDraw (c4ω 0) 1001 = 500
  rw [show c4ω 0 = 0 from by norm_num [c4ω], floorDraw_zero]

theorem c4_conn1 : iterConnCount c4ω 0 = 5 := by
  show 5 + floorDraw (c4ω (0 + 1 + generateCost * iterBatchSize c4ω 0)) 11 = 5
  rw [c4_batch1, show c4ω (0 + 1 + generateCost * 500) = 0 from by
    norm_num [c4ω, generateCost], floorDraw_zero]

theorem c4_event1 : iterEventCount c4ω 0 = 10 := by
  show 10 + floorDraw
    (c4ω (0 + 2 + generateCost * iterBatchSize c4ω 0 + 100000 * iterConnCount c4ω 0)) 41 = 10
  rw [c4_batch1, c4_conn1, show c4ω (0 + 2 + generateCost * 500 + 100000 * 5) = 0 from by
    norm_num [c4ω, generateCost], floorDraw_zero]

theorem c4_sleep1 : iterSleepPos c4ω 0 = 23028003 := by
  rw [iterSleepPos, c4_batch1, c4_conn1, c4_event1]
  norm_num [generateCost]

theorem c4_batch2 : iterBatchSize c4ω (23028003 + 1) = 501 := by
  show 500 + floorDraw (c4ω (23028003 + 1)) 1001 = 501
  rw [show c4ω (23028003 + 1) = 1 / 1001 from by norm_num [c4ω], floorDraw_inv1001]

theorem c4_conn2 : iterConnCount c4ω (23028003 + 1) = 5 := by
  show 5 + floorDraw
    (c4ω (23028003 + 1 + 1 + generateCost * iterBatchSize c4ω (23028003 + 1))) 11 = 5
  rw [c4_batch2, show c4ω (23028003 + 1 + 1 + generateCost * 501) = 0 from by
    norm_num [c4ω, generateCost], floorDraw_zero]

theorem c4_event2 : iterEventCount c4ω (23028003 + 1) = 10 := by
  show 10 + floorDraw (c4ω (23028003 + 1 + 2 + generateCost * iterBatchSize c4ω (23028003 + 1) +
    100000 * iterConnCount c4ω (23028003 + 1))) 41 = 10
  rw [c4_batch2, c4_conn2, show c4ω (23028003 + 1 + 2 + generateCost * 501 + 100000 * 5) = 0
    from by norm_num [c4ω, generateCost], floorDraw_zero]

theorem c4_sleep2 : iterSleepPos c4ω (23028003 + 1) = 46101057 := by
  rw [iterSleepPos, c4_batch2, c4_conn2, c4_event2]
  norm_num [generateCost]

theorem c4_batch3 : iterBatchSize c4ω (46101057 + 1) = 500 := by
  show 500 + floorDraw (c4ω (46101057 + 1)) 1001 = 500
  rw [show c4ω (46101057 + 1) = 0 from by norm_num [c4ω], floorDraw_zero]

/-- C4 counterexample: under a concrete seed the three iterations do
not insert the same number of records — iteration 1 inserts 500 into
the memory-intensive list while iteration 2 inserts 501 — and after 3
iterations that Growth Container holds 1501 items, which is not 3 times
any per-iteration insertion count (1501 is not divisible by 3). -/
theorem C4_counterexample :
    (sim_state_after false c4ω (fun _ => 0) 3).1.processor.memory_intensive_data.length =
      1501 ∧
    iterBatchSize c4ω (sim_state_after false c4ω (fun _ => 0) 0).2.1 = 500 ∧
    iterBatchSize c4ω (sim_state_after false c4ω (fun _ => 0) 1).2.1 = 501 ∧
    ¬ ∃ k : Nat, 1501 = 3 * k := by
  have hp0 : (sim_state_after false c4ω (fun _ => 0) 0).2.1 = 0 := rfl
  have hm0 : (sim_state_after false c4ω
      (fun _ => 0) 0).1.processor.memory_intensive_data.length = 0 := rfl
  obtain ⟨s1p, _, s1m, _⟩ :=
    run_iteration_spec false c4ω (fun _ => 0) 1 (sim_state_after false c4ω (fun _ => 0) 0).1
      (sim_state_after false c4ω (fun _ => 0) 0).2.1
      ((sim_state_after false c4ω (fun _ => 0) 0).2.2 + 1)
      (sim_state_after_inv false c4ω (fun _ => 0) 0)
  obtain ⟨s2p, _, s2m, _⟩ :=
    run_iteration_spec false c4ω (fun _ => 0) 2 (sim_state_after false c4ω (fun _ => 0) 1).1
      (sim_state_after false c4ω (fun _ => 0) 1).2.1
      ((sim_state_after false c4ω (fun _ => 0) 1).2.2 + 1)
      (sim_state_after_inv false c4ω (fun _ => 0) 1)
  obtain ⟨s3p, _, s3m, _⟩ :=
    run_iteration_spec false c4ω (fun _ => 0) 3 (sim_state_after false c4ω (fun _ => 0) 2).1
      (sim_state_after false c4ω (fun _ => 0) 2).2.1
      ((sim_state_after false c4ω (fun _ => 0) 2).2.2 + 1)
      (sim_state_after_inv false c4ω (fun _ => 0) 2)
  have hp1 : (sim_state_after false c4ω (fun _ => 0) 1).2.1 = 23028003 + 1 := by
    rw [sim_state_after_succ, s1p, hp0, c4_sleep1]
  have hm1 : (sim_state_after false c4ω
      (fun _ => 0) 1).1.processor.memory_intensive_data.length = 500 := by
    rw [sim_state_after_succ, s1m, hm0, hp0, c4_batch1]
  have hp2 : (sim_state_after false c4ω (fun _ => 0) 2).2.1 = 46101057 + 1 := by
    rw [sim_state_after_succ, s2p, hp1, c4_sleep2]
  have hm2 : (sim_state_after false c4ω
      (fun _ => 0) 2).1.processor.memory_intensive_data.length = 1001 := by
    rw [sim_state_after_succ, s2m, hm1, hp1, c4_batch2]
  have hm3 : (sim_state_after false c4ω
      (fun _ => 0) 3).1.processor.memory_intensive_data.length = 1501 := by
    rw [sim_state_after_succ, s3m, hm2, hp2, c4_batch3]
  refine ⟨hm3, ?_, ?_, ?_⟩
  · rw [hp0, c4_batch1]
  · rw [hp1, c4_batch2]
  · intro ⟨k, hk⟩
    omega

/-- C4 amended: with a fixed seed and a strictly increasing clock,
after 3 iterations each Growth Container's size equals the sum over the
three iterations of that iteration's insertion count into it — not 3
times a fixed per-iteration count, since the counts are drawn anew each
iteration: the caches and record stores grow by that iteration's batch
size, `temp_files` by 100 per record, the connection stores by that
iteration's connection count, each listener buffer by that iteration's
event count, and every connection buffer holds exactly its 50 creation
messages. -/
theorem C4_amended (avail : Bool) (ω τ : Nat → Rat) (hτ : StrictMono τ) :
    (sim_state_after avail ω τ 3).1.global_cache.length =
      iterBatchSize ω (sim_state_after avail ω τ 0).2.1 +
      iterBatchSize ω (sim_state_after avail ω τ 1).2.1 +
      iterBatchSize ω (sim_state_after avail ω τ 2).2.1 ∧
    (sim_state_after avail ω τ 3).1.processor.processed_records.length =
      iterBatchSize ω (sim_state_after avail ω τ 0).2.1 +
      iterBatchSize ω (sim_state_after avail ω τ 1).2.1 +
      iterBatchSize ω (sim_state_after avail ω τ 2).2.1 ∧
    (sim_state_after avail ω τ 3).1.processor.memory_intensive_data.length =
      iterBatchSize ω (sim_state_after avail ω τ 0).2.1 +
      iterBatchSize ω (sim_state_after avail ω τ 1).2.1 +
      iterBatchSize ω (sim_state_after avail ω τ 2).2.1 ∧
    (sim_state_after avail ω τ 3).1.processor.temp_files.length =
      100 * (iterBatchSize ω (sim_state_after avail ω τ 0).2.1 +
        iterBatchSize ω (sim_state_after avail ω τ 1).2.1 +
        iterBatchSize ω (sim_state_after avail ω τ 2).2.1) ∧
    (sim_state_after avail ω τ 3).1.connMgr.active_connections.length =
      iterConnCount ω (sim_state_after avail ω τ 0).2.1 +
      iterConnCount ω (sim_state_after avail ω τ 1).2.1 +
      iterConnCount ω (sim_state_after avail ω τ 2).2.1 ∧
    (sim_state_after avail ω τ 3).1.connMgr.connection_history.length =
      iterConnCount ω (sim_state_after avail ω τ 0).2.1 +
      iterConnCount ω (sim_state_after avail ω τ 1).2.1 +
      iterConnCount ω (sim_state_after avail ω τ 2).2.1 ∧
    listenerBufLens (sim_state_after avail ω τ 3).1 =
      List.replicate 5 (iterEventCount ω (sim_state_after avail ω τ 0).2.1 +
        iterEventCount ω (sim_state_after avail ω τ 1).2.1 +
        iterEventCount ω (sim_state_after avail ω τ 2).2.1) ∧
    Buffers50 (sim_state_after avail ω τ 3).1.connMgr := by
  obtain ⟨a1, a2, a3, a4, a5, a6, a7, _⟩ := sim_step_sizes avail ω τ hτ 0
  obtain ⟨b1, b2, b3, b4, b5, b6, b7, _⟩ := sim_step_sizes avail ω τ hτ 1
  obtain ⟨d1, d2, d3, d4, d5, d6, d7, _⟩ := sim_step_sizes avail ω τ hτ 2
  have h0c : (sim_state_after avail ω τ 0).1.global_cache.length = 0 := rfl
  have h0r : (sim_state_after avail ω τ 0).1.processor.processed_records.length = 0 := rfl
  have h0m : (sim_state_after avail ω τ
      0).1.processor.memory_intensive_data.length = 0 := rfl
  have h0t : (sim_state_after avail ω τ 0).1.processor.temp_files.length = 0 := rfl
  have h0a : (sim_state_after avail ω τ 0).1.connMgr.active_connections.length = 0 := rfl
  have h0h : (sim_state_after avail ω τ 0).1.connMgr.connection_history.length = 0 := rfl
  have h0l : listenerBufLens (sim_state_after avail ω τ 0).1 = List.replicate 5 0 := rfl
  refine ⟨?_, ?_, ?_, ?_, ?_, ?_, ?_, (sim_state_after_inv avail ω τ 3).2⟩
  · rw [d1, b1, a1, h0c]; ring
  · rw [d2, b2, a2, h0r]; ring
  · rw [d3, b3, a3, h0m]; ring
  · rw [d4, b4, a4, h0t]; ring
  · rw [d5, b5, a5, h0a]; ring
  · rw [d6, b6, a6, h0h]; ring
  · rw [d7, b7, a7, h0l]
    simp [List.map_replicate]

/-- Witness for C4's amended theorem at the identity-cast clock. -/
theorem C4_witness :
    StrictMono (fun n : Nat => (n : Rat)) ∧
    ((sim_state_after true (fun _ => 0) (fun n : Nat => (n : Rat)) 3).1.global_cache.length =
      iterBatchSize (fun _ => 0)
        (sim_state_after true (fun _ => 0) (fun n : Nat => (n : Rat)) 0).2.1 +
      iterBatchSize (fun _ => 0)
        (sim_state_after true (fun _ => 0) (fun n : Nat => (n : Rat)) 1).2.1 +
      iterBatchSize (fun _ => 0)
        (sim_state_after true (fun _ => 0) (fun n : Nat => (n : Rat)) 2).2.1) :=
  ⟨fun a b h => by show ((a : Rat) < (b : Rat)); exact_mod_cast h,
   (C4_amended true (fun _ => 0) (fun n : Nat => (n : Rat))
     (fun a b h => by show ((a : Rat) < (b : Rat)); exact_mod_cast h)).1⟩

end Leak
